import Mathlib

/-!
# Typed metadata property access (CesiumPropertyTableProperty.cpp)

A shallow embedding of the property-table-property dispatch layer of
`Source/CesiumRuntime/Private/CesiumPropertyTableProperty.cpp` and of the
Blueprint accessors built on it.

* A `std::any` holding a `PropertyTablePropertyView<T, Normalized>` is a view
  together with the tag of its instantiation (`ViewType`).
* `std::any_cast<X>(property)` throws `std::bad_any_cast` when the stored
  instantiation is not `X`; the dispatcher therefore returns an `Except`.
* The callbacks of the source are generic lambdas (`const auto& v`); here they
  take a `TypedView`, a view paired with the tag of its instantiation.
* The dispatcher is written over an arbitrary monad `m` in which the callback
  runs, so that the number of callback invocations can be observed.
-/

namespace CesiumPropertyTableProperty

/-! ## Data model -/

/-- Modelled from the spec: the enum `ECesiumMetadataType` is declared in a header
that is not part of the sources. The dispatcher names `Scalar`, `Vec2`..`Vec4`,
`Mat2`..`Mat4`, `Boolean` and `String`; `Invalid` and `Enum` are the remaining
values, which every `switch` of the dispatcher sends to its `default` label. -/
inductive ECesiumMetadataType
  | Invalid | Scalar | Vec2 | Vec3 | Vec4 | Mat2 | Mat3 | Mat4 | Boolean | Enum | String
  deriving DecidableEq, Repr

/-- Modelled from the spec: the enum `ECesiumMetadataComponentType` is declared in a
header that is not part of the sources. The dispatcher names the ten numeric
component types; `None` is the remaining value, sent to `default`. -/
inductive ECesiumMetadataComponentType
  | None | Int8 | Uint8 | Int16 | Uint16 | Int32 | Uint32 | Int64 | Uint64
  | Float32 | Float64
  deriving DecidableEq, Repr

/-- The runtime descriptor `FCesiumMetadataValueType` (fields `Type`,
`ComponentType`, `bIsArray`). -/
structure FCesiumMetadataValueType where
  Type_ : ECesiumMetadataType
  ComponentType : ECesiumMetadataComponentType
  bIsArray : Bool
  deriving DecidableEq, Repr

/-- The C++ component types the view instantiations range over. -/
inductive ComponentT
  | int8 | uint8 | int16 | uint16 | int32 | uint32 | int64 | uint64 | float | double
  deriving DecidableEq, Repr

/-- The element type of a view: a scalar, `glm::vec<N, c>`, `glm::mat<N, N, c>`,
`bool` or `std::string_view`. -/
inductive ElementT
  | scalar (c : ComponentT)
  | vec (N : Nat) (c : ComponentT)
  | mat (N : Nat) (c : ComponentT)
  | bool
  | string_view
  deriving DecidableEq, Repr

/-- A view instantiation `PropertyTablePropertyView<T, Normalized>`, where `T` is
`element`, or `PropertyArrayView<element>` when `array` is set. -/
structure ViewType where
  element : ElementT
  array : Bool
  Normalized : Bool
  deriving DecidableEq, Repr

/-- The part of `PropertyTablePropertyViewStatus` the accessors distinguish. -/
inductive PropertyTablePropertyViewStatus
  | Valid
  | EmptyPropertyWithDefault
  | Error (code : Nat)
  deriving DecidableEq, Repr

/-- The interface of a `PropertyTablePropertyView` used by the accessors:
`status()`, `size()`, `arrayCount()`, `get(i)` and `getRaw(i)`. -/
structure PropertyTablePropertyView (Value : Type) where
  status : PropertyTablePropertyViewStatus
  size : Int
  arrayCount : Int
  get : Int → Option Value
  getRaw : Int → Value

/-- A view together with the tag of its instantiation: what a generic callback
`[](const auto& v)` receives. -/
structure TypedView (Value : Type) where
  type : ViewType
  view : PropertyTablePropertyView Value

/-- A `std::any`: empty, or a view of some instantiation. -/
abbrev StdAny (Value : Type) := Option (TypedView Value)

/-- The exception `std::bad_any_cast`. -/
inductive bad_any_cast
  | thrown
  deriving DecidableEq, Repr

/-- Behaviour of `std::any_cast<PropertyTablePropertyView<T, Normalized>>(property)`:
the stored view when the stored instantiation is the requested one, and
`std::bad_any_cast` otherwise (also for an empty `std::any`). -/
def any_cast {Value : Type} (T : ViewType) (property : StdAny Value) :
    Except bad_any_cast (TypedView Value) :=
  match property with
  | some stored => if stored.type = T then .ok stored else .error .thrown
  | none => .error .thrown

/-- The default-constructed `PropertyTablePropertyView<uint8>()`: an invalid view.
Its `size()` is zero ("size() returns zero if the view is invalid"). -/
def invalidView {Value : Type} [Inhabited Value] : TypedView Value :=
  { type := { element := .scalar .uint8, array := false, Normalized := false }
    view :=
      { status := .Error 0
        size := 0
        arrayCount := 0
        get := fun _ => none
        getRaw := fun _ => default } }

/-- The expression `callback(std::any_cast<X>(property))`: the cast is evaluated
first; when it throws, the callback is not invoked. -/
def callback_any_cast {Value R : Type} {m : Type → Type} [Monad m]
    (T : ViewType) (property : StdAny Value) (callback : TypedView Value → m R) :
    m (Except bad_any_cast R) :=
  match any_cast T property with
  | .ok v => Except.ok <$> callback v
  | .error e => pure (.error e)

/-- The expression `callback(PropertyTablePropertyView<uint8>())`. -/
def callback_invalid {Value R : Type} [Inhabited Value] {m : Type → Type} [Monad m]
    (callback : TypedView Value → m R) : m (Except bad_any_cast R) :=
  Except.ok <$> callback invalidView

/-! ## The dispatcher -/

section Dispatcher

variable {Value R : Type} [Inhabited Value] {m : Type → Type} [Monad m]

/-- Source lines 24-61, `scalarPropertyTablePropertyCallback<Normalized>`. -/
def scalarPropertyTablePropertyCallback (Normalized : Bool) (property : StdAny Value)
    (valueType : FCesiumMetadataValueType) (callback : TypedView Value → m R) :
    m (Except bad_any_cast R) :=
  match valueType.ComponentType with
  | .Int8 => callback_any_cast ⟨.scalar .int8, false, Normalized⟩ property callback
  | .Uint8 => callback_any_cast ⟨.scalar .uint8, false, Normalized⟩ property callback
  | .Int16 => callback_any_cast ⟨.scalar .int16, false, Normalized⟩ property callback
  | .Uint16 => callback_any_cast ⟨.scalar .uint16, false, Normalized⟩ property callback
  | .Int32 => callback_any_cast ⟨.scalar .int32, false, Normalized⟩ property callback
  | .Uint32 => callback_any_cast ⟨.scalar .uint32, false, Normalized⟩ property callback
  | .Int64 => callback_any_cast ⟨.scalar .int64, false, Normalized⟩ property callback
  | .Uint64 => callback_any_cast ⟨.scalar .uint64, false, Normalized⟩ property callback
  | .Float32 => callback_any_cast ⟨.scalar .float, false, false⟩ property callback
  | .Float64 => callback_any_cast ⟨.scalar .double, false, false⟩ property callback
  | _ => callback_invalid callback

/-- Source lines 77-134, `scalarArrayPropertyTablePropertyCallback<Normalized>`. -/
def scalarArrayPropertyTablePropertyCallback (Normalized : Bool) (property : StdAny Value)
    (valueType : FCesiumMetadataValueType) (callback : TypedView Value → m R) :
    m (Except bad_any_cast R) :=
  match valueType.ComponentType with
  | .Int8 => callback_any_cast ⟨.scalar .int8, true, Normalized⟩ property callback
  | .Uint8 => callback_any_cast ⟨.scalar .uint8, true, Normalized⟩ property callback
  | .Int16 => callback_any_cast ⟨.scalar .int16, true, Normalized⟩ property callback
  | .Uint16 => callback_any_cast ⟨.scalar .uint16, true, Normalized⟩ property callback
  | .Int32 => callback_any_cast ⟨.scalar .int32, true, Normalized⟩ property callback
  | .Uint32 => callback_any_cast ⟨.scalar .uint32, true, Normalized⟩ property callback
  | .Int64 => callback_any_cast ⟨.scalar .int64, true, Normalized⟩ property callback
  | .Uint64 => callback_any_cast ⟨.scalar .uint64, true, Normalized⟩ property callback
  | .Float32 => callback_any_cast ⟨.scalar .float, true, false⟩ property callback
  | .Float64 => callback_any_cast ⟨.scalar .double, true, false⟩ property callback
  | _ => callback_invalid callback

/-- Source lines 150-198, `vecNPropertyTablePropertyCallback<N, Normalized>`. -/
def vecNPropertyTablePropertyCallbackN (N : Nat) (Normalized : Bool)
    (property : StdAny Value) (valueType : FCesiumMetadataValueType)
    (callback : TypedView Value → m R) : m (Except bad_any_cast R) :=
  match valueType.ComponentType with
  | .Int8 => callback_any_cast ⟨.vec N .int8, false, Normalized⟩ property callback
  | .Uint8 => callback_any_cast ⟨.vec N .uint8, false, Normalized⟩ property callback
  | .Int16 => callback_any_cast ⟨.vec N .int16, false, Normalized⟩ property callback
  | .Uint16 => callback_any_cast ⟨.vec N .uint16, false, Normalized⟩ property callback
  | .Int32 => callback_any_cast ⟨.vec N .int32, false, Normalized⟩ property callback
  | .Uint32 => callback_any_cast ⟨.vec N .uint32, false, Normalized⟩ property callback
  | .Int64 => callback_any_cast ⟨.vec N .int64, false, Normalized⟩ property callback
  | .Uint64 => callback_any_cast ⟨.vec N .uint64, false, Normalized⟩ property callback
  | .Float32 => callback_any_cast ⟨.vec N .float, false, false⟩ property callback
  | .Float64 => callback_any_cast ⟨.vec N .double, false, false⟩ property callback
  | _ => callback_invalid callback

/-- Source lines 213-240, `vecNPropertyTablePropertyCallback<Normalized>`. -/
def vecNPropertyTablePropertyCallback (Normalized : Bool) (property : StdAny Value)
    (valueType : FCesiumMetadataValueType) (callback : TypedView Value → m R) :
    m (Except bad_any_cast R) :=
  if valueType.Type_ = .Vec2 then
    vecNPropertyTablePropertyCallbackN 2 Normalized property valueType callback
  else if valueType.Type_ = .Vec3 then
    vecNPropertyTablePropertyCallbackN 3 Normalized property valueType callback
  else if valueType.Type_ = .Vec4 then
    vecNPropertyTablePropertyCallbackN 4 Normalized property valueType callback
  else callback_invalid callback

/-- Source lines 257-308, `vecNArrayPropertyTablePropertyCallback<N, Normalized>`. -/
def vecNArrayPropertyTablePropertyCallbackN (N : Nat) (Normalized : Bool)
    (property : StdAny Value) (valueType : FCesiumMetadataValueType)
    (callback : TypedView Value → m R) : m (Except bad_any_cast R) :=
  match valueType.ComponentType with
  | .Int8 => callback_any_cast ⟨.vec N .int8, true, Normalized⟩ property callback
  | .Uint8 => callback_any_cast ⟨.vec N .uint8, true, Normalized⟩ property callback
  | .Int16 => callback_any_cast ⟨.vec N .int16, true, Normalized⟩ property callback
  | .Uint16 => callback_any_cast ⟨.vec N .uint16, true, Normalized⟩ property callback
  | .Int32 => callback_any_cast ⟨.vec N .int32, true, Normalized⟩ property callback
  | .Uint32 => callback_any_cast ⟨.vec N .uint32, true, Normalized⟩ property callback
  | .Int64 => callback_any_cast ⟨.vec N .int64, true, Normalized⟩ property callback
  | .Uint64 => callback_any_cast ⟨.vec N .uint64, true, Normalized⟩ property callback
  | .Float32 => callback_any_cast ⟨.vec N .float, true, false⟩ property callback
  | .Float64 => callback_any_cast ⟨.vec N .double, true, false⟩ property callback
  | _ => callback_invalid callback

/-- Source lines 324-354, `vecNArrayPropertyTablePropertyCallback<Normalized>`. -/
def vecNArrayPropertyTablePropertyCallback (Normalized : Bool) (property : StdAny Value)
    (valueType : FCesiumMetadataValueType) (callback : TypedView Value → m R) :
    m (Except bad_any_cast R) :=
  if valueType.Type_ = .Vec2 then
    vecNArrayPropertyTablePropertyCallbackN 2 Normalized property valueType callback
  else if valueType.Type_ = .Vec3 then
    vecNArrayPropertyTablePropertyCallbackN 3 Normalized property valueType callback
  else if valueType.Type_ = .Vec4 then
    vecNArrayPropertyTablePropertyCallbackN 4 Normalized property valueType callback
  else callback_invalid callback

/-- Source lines 370-427, `matNPropertyTablePropertyCallback<N, Normalized>`. -/
def matNPropertyTablePropertyCallbackN (N : Nat) (Normalized : Bool)
    (property : StdAny Value) (valueType : FCesiumMetadataValueType)
    (callback : TypedView Value → m R) : m (Except bad_any_cast R) :=
  match valueType.ComponentType with
  | .Int8 => callback_any_cast ⟨.mat N .int8, false, Normalized⟩ property callback
  | .Uint8 => callback_any_cast ⟨.mat N .uint8, false, Normalized⟩ property callback
  | .Int16 => callback_any_cast ⟨.mat N .int16, false, Normalized⟩ property callback
  | .Uint16 => callback_any_cast ⟨.mat N .uint16, false, Normalized⟩ property callback
  | .Int32 => callback_any_cast ⟨.mat N .int32, false, Normalized⟩ property callback
  | .Uint32 => callback_any_cast ⟨.mat N .uint32, false, Normalized⟩ property callback
  | .Int64 => callback_any_cast ⟨.mat N .int64, false, Normalized⟩ property callback
  | .Uint64 => callback_any_cast ⟨.mat N .uint64, false, Normalized⟩ property callback
  | .Float32 => callback_any_cast ⟨.mat N .float, false, false⟩ property callback
  | .Float64 => callback_any_cast ⟨.mat N .double, false, false⟩ property callback
  | _ => callback_invalid callback

/-- Source lines 443-470, `matNPropertyTablePropertyCallback<Normalized>`. -/
def matNPropertyTablePropertyCallback (Normalized : Bool) (property : StdAny Value)
    (valueType : FCesiumMetadataValueType) (callback : TypedView Value → m R) :
    m (Except bad_any_cast R) :=
  if valueType.Type_ = .Mat2 then
    matNPropertyTablePropertyCallbackN 2 Normalized property valueType callback
  else if valueType.Type_ = .Mat3 then
    matNPropertyTablePropertyCallbackN 3 Normalized property valueType callback
  else if valueType.Type_ = .Mat4 then
    matNPropertyTablePropertyCallbackN 4 Normalized property valueType callback
  else callback_invalid callback

/-- Source lines 487-534, `matNArrayPropertyTablePropertyCallback<N, Normalized>`. -/
def matNArrayPropertyTablePropertyCallbackN (N : Nat) (Normalized : Bool)
    (property : StdAny Value) (valueType : FCesiumMetadataValueType)
    (callback : TypedView Value → m R) : m (Except bad_any_cast R) :=
  match valueType.ComponentType with
  | .Int8 => callback_any_cast ⟨.mat N .int8, true, Normalized⟩ property callback
  | .Uint8 => callback_any_cast ⟨.mat N .uint8, true, Normalized⟩ property callback
  | .Int16 => callback_any_cast ⟨.mat N .int16, true, Normalized⟩ property callback
  | .Uint16 => callback_any_cast ⟨.mat N .uint16, true, Normalized⟩ property callback
  | .Int32 => callback_any_cast ⟨.mat N .int32, true, Normalized⟩ property callback
  | .Uint32 => callback_any_cast ⟨.mat N .uint32, true, Normalized⟩ property callback
  | .Int64 => callback_any_cast ⟨.mat N .int64, true, Normalized⟩ property callback
  | .Uint64 => callback_any_cast ⟨.mat N .uint64, true, Normalized⟩ property callback
  | .Float32 => callback_any_cast ⟨.mat N .float, true, false⟩ property callback
  | .Float64 => callback_any_cast ⟨.mat N .double, true, false⟩ property callback
  | _ => callback_invalid callback

/-- Source lines 550-580, `matNArrayPropertyTablePropertyCallback<Normalized>`. -/
def matNArrayPropertyTablePropertyCallback (Normalized : Bool) (property : StdAny Value)
    (valueType : FCesiumMetadataValueType) (callback : TypedView Value → m R) :
    m (Except bad_any_cast R) :=
  if valueType.Type_ = .Mat2 then
    matNArrayPropertyTablePropertyCallbackN 2 Normalized property valueType callback
  else if valueType.Type_ = .Mat3 then
    matNArrayPropertyTablePropertyCallbackN 3 Normalized property valueType callback
  else if valueType.Type_ = .Mat4 then
    matNArrayPropertyTablePropertyCallbackN 4 Normalized property valueType callback
  else callback_invalid callback

/-- The test `property.type() == typeid(PropertyTablePropertyView<...>)`. -/
def StdAny.hasType (property : StdAny Value) (T : ViewType) : Bool :=
  match property with
  | some stored => decide (stored.type = T)
  | none => false

/-- The `case String:` label of the array switch and what follows it
(source lines 614-623); `case Boolean:` falls through to it. -/
def arrayStringCase (property : StdAny Value) (callback : TypedView Value → m R) :
    m (Except bad_any_cast R) :=
  if property.hasType ⟨.string_view, true, false⟩ then
    callback_any_cast ⟨.string_view, true, false⟩ property callback
  else callback_invalid callback

/-- Source lines 582-625, `arrayPropertyTablePropertyCallback<Normalized>`. -/
def arrayPropertyTablePropertyCallback (Normalized : Bool) (property : StdAny Value)
    (valueType : FCesiumMetadataValueType) (callback : TypedView Value → m R) :
    m (Except bad_any_cast R) :=
  match valueType.Type_ with
  | .Scalar => scalarArrayPropertyTablePropertyCallback Normalized property valueType callback
  | .Vec2 | .Vec3 | .Vec4 =>
    vecNArrayPropertyTablePropertyCallback Normalized property valueType callback
  | .Mat2 | .Mat3 | .Mat4 =>
    matNArrayPropertyTablePropertyCallback Normalized property valueType callback
  | .Boolean =>
    if property.hasType ⟨.bool, true, false⟩ then
      callback_any_cast ⟨.bool, true, false⟩ property callback
    else arrayStringCase property callback
  | .String => arrayStringCase property callback
  | _ => callback_invalid callback

/-- The `case String:` label of the non-array switch and what follows it
(source lines 684-690); `case Boolean:` falls through to it. -/
def stringCase (property : StdAny Value) (callback : TypedView Value → m R) :
    m (Except bad_any_cast R) :=
  if property.hasType ⟨.string_view, false, false⟩ then
    callback_any_cast ⟨.string_view, false, false⟩ property callback
  else callback_invalid callback

/-- Source lines 627-692, `propertyTablePropertyCallback`. -/
@[noinline, nospecialize]
def propertyTablePropertyCallback (property : StdAny Value)
    (valueType : FCesiumMetadataValueType) (normalized : Bool)
    (callback : TypedView Value → m R) : m (Except bad_any_cast R) :=
  if valueType.bIsArray then
    (if normalized then arrayPropertyTablePropertyCallback true property valueType callback
     else arrayPropertyTablePropertyCallback false property valueType callback)
  else
    match valueType.Type_ with
    | .Scalar =>
      if normalized then scalarPropertyTablePropertyCallback true property valueType callback
      else scalarPropertyTablePropertyCallback false property valueType callback
    | .Vec2 | .Vec3 | .Vec4 =>
      if normalized then vecNPropertyTablePropertyCallback true property valueType callback
      else vecNPropertyTablePropertyCallback false property valueType callback
    | .Mat2 | .Mat3 | .Mat4 =>
      if normalized then matNPropertyTablePropertyCallback true property valueType callback
      else matNPropertyTablePropertyCallback false property valueType callback
    | .Boolean =>
      if property.hasType ⟨.bool, false, false⟩ then
        callback_any_cast ⟨.bool, false, false⟩ property callback
      else stringCase property callback
    | .String => stringCase property callback
    | _ => callback_invalid callback

end Dispatcher

/-! ## The property and its accessors -/

/-- The fields of `FCesiumPropertyTableProperty` the accessors read: the type-erased
view `_property`, the descriptor `_valueType` and the flag `_normalized`. -/
structure FCesiumPropertyTableProperty (Value : Type) where
  _property : StdAny Value
  _valueType : FCesiumMetadataValueType
  _normalized : Bool

/-- Modelled from the spec: `FCesiumMetadataValue` is declared in a header that is not
part of the sources. It is either the empty (default-constructed) value or holds a
value obtained from a view of instantiation `T`. -/
inductive FCesiumMetadataValue (Value : Type)
  | empty
  | holds (T : ViewType) (value : Value)

/-- Modelled from the spec: the constructor of `FCesiumMetadataValue` from a
`std::optional`, as in `FCesiumMetadataValue(view.get(FeatureID))`: the metadata value
built from the optional, empty when the optional has no value. -/
def FCesiumMetadataValue.ofOptional {Value : Type} (T : ViewType) :
    Option Value → FCesiumMetadataValue Value
  | some value => .holds T value
  | none => .empty

/-- Modelled from the spec: `FCesiumPropertyArray` is declared in a header that is not
part of the sources. It is either the empty (default-constructed) array or wraps the
array value obtained from an array view of instantiation `T`. -/
inductive FCesiumPropertyArray (Value : Type)
  | empty
  | wraps (T : ViewType) (value : Value)

section Accessors

variable {Value : Type} [Inhabited Value]

/-- Source lines 708-719, `GetArrayElementBlueprintType`. The conversion
`CesiumMetadataValueTypeToBlueprintType` and the enumerator
`ECesiumMetadataBlueprintType::None` are declared outside the sources and are
parameters. The property is threaded through, so that its state after the call can be
compared with its state before: the source changes `bIsArray` on a local copy of the
descriptor. -/
def GetArrayElementBlueprintType {ECesiumMetadataBlueprintType : Type}
    (None : ECesiumMetadataBlueprintType)
    (CesiumMetadataValueTypeToBlueprintType :
      FCesiumMetadataValueType → ECesiumMetadataBlueprintType)
    (Property : FCesiumPropertyTableProperty Value) :
    ECesiumMetadataBlueprintType × FCesiumPropertyTableProperty Value :=
  if !Property._valueType.bIsArray then (None, Property)
  else
    let valueType : FCesiumMetadataValueType := Property._valueType
    let valueType := { valueType with bIsArray := false }
    (CesiumMetadataValueTypeToBlueprintType valueType, Property)

/-- Source lines 721-725, `GetValueType`. -/
def GetValueType (Property : FCesiumPropertyTableProperty Value) :
    FCesiumMetadataValueType :=
  Property._valueType

/-- Source lines 727-734, `GetPropertySize`. -/
def GetPropertySize (Property : FCesiumPropertyTableProperty Value) :
    Except bad_any_cast Int :=
  propertyTablePropertyCallback (m := Id) Property._property Property._valueType
    Property._normalized (fun view => view.view.size)

/-- Source lines 736-743, `GetArraySize`. -/
def GetArraySize (Property : FCesiumPropertyTableProperty Value) :
    Except bad_any_cast Int :=
  propertyTablePropertyCallback (m := Id) Property._property Property._valueType
    Property._normalized (fun view => view.view.arrayCount)

/-- Source lines 745-767, `GetBoolean`. The conversion
`CesiumMetadataConversions<bool, decltype(value)>::convert` is declared outside the
sources and is a parameter; the type of `value` is fixed by the instantiation of the
view. -/
def GetBoolean (convert : ViewType → Value → Bool → Bool)
    (Property : FCesiumPropertyTableProperty Value) (FeatureID : Int)
    (DefaultValue : Bool) : Except bad_any_cast Bool :=
  propertyTablePropertyCallback (m := Id) Property._property Property._valueType
    Property._normalized
    (fun v =>
      if FeatureID < 0 ∨ FeatureID ≥ v.view.size then DefaultValue
      else
        match v.view.get FeatureID with
        | some value => convert v.type value DefaultValue
        | none => DefaultValue)

/-- Source lines 769-791, `GetByte`. The conversion
`CesiumMetadataConversions<uint8, decltype(value)>::convert` is declared outside the
sources and is a parameter; the type of `value` is fixed by the instantiation of the
view. -/
def GetByte (convert : ViewType → Value → Nat → Nat)
    (Property : FCesiumPropertyTableProperty Value) (FeatureID : Int)
    (DefaultValue : Nat) : Except bad_any_cast Nat :=
  propertyTablePropertyCallback (m := Id) Property._property Property._valueType
    Property._normalized
    (fun v =>
      if FeatureID < 0 ∨ FeatureID ≥ v.view.size then DefaultValue
      else
        match v.view.get FeatureID with
        | some value => convert v.type value DefaultValue
        | none => DefaultValue)

/-- Source lines 793-815, `GetInteger`. The conversion
`CesiumMetadataConversions<int32, decltype(value)>::convert` is declared outside the
sources and is a parameter; the type of `value` is fixed by the instantiation of the
view. -/
def GetInteger (convert : ViewType → Value → Int → Int)
    (Property : FCesiumPropertyTableProperty Value) (FeatureID : Int)
    (DefaultValue : Int) : Except bad_any_cast Int :=
  propertyTablePropertyCallback (m := Id) Property._property Property._valueType
    Property._normalized
    (fun v =>
      if FeatureID < 0 ∨ FeatureID ≥ v.view.size then DefaultValue
      else
        match v.view.get FeatureID with
        | some value => convert v.type value DefaultValue
        | none => DefaultValue)

/-- Source lines 817-839, `GetInteger64`. The conversion
`CesiumMetadataConversions<int64, decltype(value)>::convert` is declared outside the
sources and is a parameter; the type of `value` is fixed by the instantiation of the
view. -/
def GetInteger64 (convert : ViewType → Value → Int → Int)
    (Property : FCesiumPropertyTableProperty Value) (FeatureID : Int)
    (DefaultValue : Int) : Except bad_any_cast Int :=
  propertyTablePropertyCallback (m := Id) Property._property Property._valueType
    Property._normalized
    (fun v =>
      if FeatureID < 0 ∨ FeatureID ≥ v.view.size then DefaultValue
      else
        match v.view.get FeatureID with
        | some value => convert v.type value DefaultValue
        | none => DefaultValue)

/-- Source lines 841-863, `GetFloat`. The conversion
`CesiumMetadataConversions<float, decltype(value)>::convert` is declared outside the
sources and is a parameter; the type of `value` is fixed by the instantiation of the
view. -/
def GetFloat {float : Type} (convert : ViewType → Value → float → float)
    (Property : FCesiumPropertyTableProperty Value) (FeatureID : Int)
    (DefaultValue : float) : Except bad_any_cast float :=
  propertyTablePropertyCallback (m := Id) Property._property Property._valueType
    Property._normalized
    (fun v =>
      if FeatureID < 0 ∨ FeatureID ≥ v.view.size then DefaultValue
      else
        match v.view.get FeatureID with
        | some value => convert v.type value DefaultValue
        | none => DefaultValue)

/-- Source lines 865-887, `GetFloat64`. The conversion
`CesiumMetadataConversions<double, decltype(value)>::convert` is declared outside the
sources and is a parameter; the type of `value` is fixed by the instantiation of the
view. -/
def GetFloat64 {double : Type} (convert : ViewType → Value → double → double)
    (Property : FCesiumPropertyTableProperty Value) (FeatureID : Int)
    (DefaultValue : double) : Except bad_any_cast double :=
  propertyTablePropertyCallback (m := Id) Property._property Property._valueType
    Property._normalized
    (fun v =>
      if FeatureID < 0 ∨ FeatureID ≥ v.view.size then DefaultValue
      else
        match v.view.get FeatureID with
        | some value => convert v.type value DefaultValue
        | none => DefaultValue)

/-- Source lines 889-911, `GetIntPoint`. The conversion
`CesiumMetadataConversions<FIntPoint, decltype(value)>::convert` is declared outside the
sources and is a parameter; the type of `value` is fixed by the instantiation of the
view. -/
def GetIntPoint {FIntPoint : Type} (convert : ViewType → Value → FIntPoint → FIntPoint)
    (Property : FCesiumPropertyTableProperty Value) (FeatureID : Int)
    (DefaultValue : FIntPoint) : Except bad_any_cast FIntPoint :=
  propertyTablePropertyCallback (m := Id) Property._property Property._valueType
    Property._normalized
    (fun v =>
      if FeatureID < 0 ∨ FeatureID ≥ v.view.size then DefaultValue
      else
        match v.view.get FeatureID with
        | some value => convert v.type value DefaultValue
        | none => DefaultValue)

/-- Source lines 913-935, `GetVector2D`. The conversion
`CesiumMetadataConversions<FVector2D, decltype(value)>::convert` is declared outside the
sources and is a parameter; the type of `value` is fixed by the instantiation of the
view. -/
def GetVector2D {FVector2D : Type} (convert : ViewType → Value → FVector2D → FVector2D)
    (Property : FCesiumPropertyTableProperty Value) (FeatureID : Int)
    (DefaultValue : FVector2D) : Except bad_any_cast FVector2D :=
  propertyTablePropertyCallback (m := Id) Property._property Property._valueType
    Property._normalized
    (fun v =>
      if FeatureID < 0 ∨ FeatureID ≥ v.view.size then DefaultValue
      else
        match v.view.get FeatureID with
        | some value => convert v.type value DefaultValue
        | none => DefaultValue)

/-- Source lines 937-958, `GetIntVector`. The conversion
`CesiumMetadataConversions<FIntVector, decltype(value)>::convert` is declared outside the
sources and is a parameter; the type of `value` is fixed by the instantiation of the
view. -/
def GetIntVector {FIntVector : Type} (convert : ViewType → Value → FIntVector → FIntVector)
    (Property : FCesiumPropertyTableProperty Value) (FeatureID : Int)
    (DefaultValue : FIntVector) : Except bad_any_cast FIntVector :=
  propertyTablePropertyCallback (m := Id) Property._property Property._valueType
    Property._normalized
    (fun v =>
      if FeatureID < 0 ∨ FeatureID ≥ v.view.size then DefaultValue
      else
        match v.view.get FeatureID with
        | some value => convert v.type value DefaultValue
        | none => DefaultValue)

/-- Source lines 960-982, `GetVector3f`. The conversion
`CesiumMetadataConversions<FVector3f, decltype(value)>::convert` is declared outside the
sources and is a parameter; the type of `value` is fixed by the instantiation of the
view. -/
def GetVector3f {FVector3f : Type} (convert : ViewType → Value → FVector3f → FVector3f)
    (Property : FCesiumPropertyTableProperty Value) (FeatureID : Int)
    (DefaultValue : FVector3f) : Except bad_any_cast FVector3f :=
  propertyTablePropertyCallback (m := Id) Property._property Property._valueType
    Property._normalized
    (fun v =>
      if FeatureID < 0 ∨ FeatureID ≥ v.view.size then DefaultValue
      else
        match v.view.get FeatureID with
        | some value => convert v.type value DefaultValue
        | none => DefaultValue)

/-- Source lines 984-1006, `GetVector`. The conversion
`CesiumMetadataConversions<FVector, decltype(value)>::convert` is declared outside the
sources and is a parameter; the type of `value` is fixed by the instantiation of the
view. -/
def GetVector {FVector : Type} (convert : ViewType → Value → FVector → FVector)
    (Property : FCesiumPropertyTableProperty Value) (FeatureID : Int)
    (DefaultValue : FVector) : Except bad_any_cast FVector :=
  propertyTablePropertyCallback (m := Id) Property._property Property._valueType
    Property._normalized
    (fun v =>
      if FeatureID < 0 ∨ FeatureID ≥ v.view.size then DefaultValue
      else
        match v.view.get FeatureID with
        | some value => convert v.type value DefaultValue
        | none => DefaultValue)

/-- Source lines 1008-1030, `GetVector4`. The conversion
`CesiumMetadataConversions<FVector4, decltype(value)>::convert` is declared outside the
sources and is a parameter; the type of `value` is fixed by the instantiation of the
view. -/
def GetVector4 {FVector4 : Type} (convert : ViewType → Value → FVector4 → FVector4)
    (Property : FCesiumPropertyTableProperty Value) (FeatureID : Int)
    (DefaultValue : FVector4) : Except bad_any_cast FVector4 :=
  propertyTablePropertyCallback (m := Id) Property._property Property._valueType
    Property._normalized
    (fun v =>
      if FeatureID < 0 ∨ FeatureID ≥ v.view.size then DefaultValue
      else
        match v.view.get FeatureID with
        | some value => convert v.type value DefaultValue
        | none => DefaultValue)

/-- Source lines 1032-1054, `GetMatrix`. The conversion
`CesiumMetadataConversions<FMatrix, decltype(value)>::convert` is declared outside the
sources and is a parameter; the type of `value` is fixed by the instantiation of the
view. -/
def GetMatrix {FMatrix : Type} (convert : ViewType → Value → FMatrix → FMatrix)
    (Property : FCesiumPropertyTableProperty Value) (FeatureID : Int)
    (DefaultValue : FMatrix) : Except bad_any_cast FMatrix :=
  propertyTablePropertyCallback (m := Id) Property._property Property._valueType
    Property._normalized
    (fun v =>
      if FeatureID < 0 ∨ FeatureID ≥ v.view.size then DefaultValue
      else
        match v.view.get FeatureID with
        | some value => convert v.type value DefaultValue
        | none => DefaultValue)

/-- Source lines 1056-1078, `GetString`. The conversion
`CesiumMetadataConversions<FString, decltype(value)>::convert` is declared outside the
sources and is a parameter; the type of `value` is fixed by the instantiation of the
view. -/
def GetString (convert : ViewType → Value → String → String)
    (Property : FCesiumPropertyTableProperty Value) (FeatureID : Int)
    (DefaultValue : String) : Except bad_any_cast String :=
  propertyTablePropertyCallback (m := Id) Property._property Property._valueType
    Property._normalized
    (fun v =>
      if FeatureID < 0 ∨ FeatureID ≥ v.view.size then DefaultValue
      else
        match v.view.get FeatureID with
        | some value => convert v.type value DefaultValue
        | none => DefaultValue)

/-- Source lines 1080-1101, `GetArray`. `IsMetadataArray<decltype(value)>` holds
exactly for the values of an array view. -/
def GetArray (Property : FCesiumPropertyTableProperty Value) (FeatureID : Int) :
    Except bad_any_cast (FCesiumPropertyArray Value) :=
  propertyTablePropertyCallback (m := Id) Property._property Property._valueType
    Property._normalized
    (fun v =>
      if FeatureID < 0 ∨ FeatureID ≥ v.view.size then FCesiumPropertyArray.empty
      else
        match v.view.get FeatureID with
        | some value =>
          if v.type.array then FCesiumPropertyArray.wraps v.type value
          else FCesiumPropertyArray.empty
        | none => FCesiumPropertyArray.empty)

/-- Source lines 1103-1117, `GetValue`. -/
def GetValue (Property : FCesiumPropertyTableProperty Value) (FeatureID : Int) :
    Except bad_any_cast (FCesiumMetadataValue Value) :=
  propertyTablePropertyCallback (m := Id) Property._property Property._valueType
    Property._normalized
    (fun view =>
      if FeatureID ≥ 0 ∧ FeatureID < view.view.size then
        FCesiumMetadataValue.ofOptional view.type (view.view.get FeatureID)
      else FCesiumMetadataValue.empty)

/-- Source lines 1119-1140, `GetRawValue`. -/
def GetRawValue (Property : FCesiumPropertyTableProperty Value) (FeatureID : Int) :
    Except bad_any_cast (FCesiumMetadataValue Value) :=
  propertyTablePropertyCallback (m := Id) Property._property Property._valueType
    Property._normalized
    (fun view =>
      if view.view.status = PropertyTablePropertyViewStatus.EmptyPropertyWithDefault then
        FCesiumMetadataValue.empty
      else if FeatureID ≥ 0 ∧ FeatureID < view.view.size then
        FCesiumMetadataValue.holds view.type (view.view.getRaw FeatureID)
      else FCesiumMetadataValue.empty)

/-- Source lines 1225-1230, the deprecated `GetBlueprintComponentType`. -/
def GetBlueprintComponentType {ECesiumMetadataBlueprintType : Type}
    (None : ECesiumMetadataBlueprintType)
    (CesiumMetadataValueTypeToBlueprintType :
      FCesiumMetadataValueType → ECesiumMetadataBlueprintType)
    (Property : FCesiumPropertyTableProperty Value) :
    ECesiumMetadataBlueprintType × FCesiumPropertyTableProperty Value :=
  GetArrayElementBlueprintType None CesiumMetadataValueTypeToBlueprintType Property

/-- Source lines 1246-1250, the deprecated `GetNumberOfFeatures`. -/
def GetNumberOfFeatures (Property : FCesiumPropertyTableProperty Value) :
    Except bad_any_cast Int :=
  GetPropertySize Property

/-- Source lines 1252-1255, the deprecated `GetComponentCount`. -/
def GetComponentCount (Property : FCesiumPropertyTableProperty Value) :
    Except bad_any_cast Int :=
  GetArraySize Property

/-- Source lines 1257-1264, the deprecated `GetGenericValue`. -/
def GetGenericValue (Property : FCesiumPropertyTableProperty Value) (FeatureID : Int) :
    Except bad_any_cast (FCesiumMetadataValue Value) :=
  GetValue Property FeatureID

end Accessors

/-! ## The view a property is dispatched to -/

/-! ## Descriptors as the specification words them, and sample inputs -/

/-- The seven numeric shapes: `Scalar`, `Vec2`..`Vec4`, `Mat2`..`Mat4`. -/
def isNumericType : ECesiumMetadataType → Bool
  | .Scalar | .Vec2 | .Vec3 | .Vec4 | .Mat2 | .Mat3 | .Mat4 => true
  | _ => false

/-- A valid type: one of `Scalar`, `Vec2`..`Vec4`, `Mat2`..`Mat4`, `Boolean`, `String`. -/
def isValidType : ECesiumMetadataType → Bool
  | .Boolean | .String => true
  | t => isNumericType t

/-- The C++ component type named by a component type of the descriptor; the ten
numeric component types have one. -/
def componentOf : ECesiumMetadataComponentType → Option ComponentT
  | .None => none
  | .Int8 => some .int8
  | .Uint8 => some .uint8
  | .Int16 => some .int16
  | .Uint16 => some .uint16
  | .Int32 => some .int32
  | .Uint32 => some .uint32
  | .Int64 => some .int64
  | .Uint64 => some .uint64
  | .Float32 => some .float
  | .Float64 => some .double

/-- One of the ten numeric component types. -/
def isNumericComponentType (c : ECesiumMetadataComponentType) : Bool :=
  (componentOf c).isSome

/-- The eight integer component types. -/
def ComponentT.isInteger : ComponentT → Bool
  | .float | .double => false
  | _ => true

/-- A value type without a valid type or component type: its type is not valid, or
its type is numeric and its component type is not one of the ten numeric ones. -/
def InvalidValueType (valueType : FCesiumMetadataValueType) : Prop :=
  isValidType valueType.Type_ = false ∨
    (isNumericType valueType.Type_ = true ∧
      isNumericComponentType valueType.ComponentType = false)

/-- The element shape named by a numeric type, over component `c`. -/
def elementOf (c : ComponentT) : ECesiumMetadataType → Option ElementT
  | .Scalar => some (.scalar c)
  | .Vec2 => some (.vec 2 c)
  | .Vec3 => some (.vec 3 c)
  | .Vec4 => some (.vec 4 c)
  | .Mat2 => some (.mat 2 c)
  | .Mat3 => some (.mat 3 c)
  | .Mat4 => some (.mat 4 c)
  | _ => none

/-- The view instantiation matching a numeric descriptor: element shape from the
type, component from the component type, an array view iff `bIsArray`, normalized iff
the flag is set and the component is an integer type. -/
def matchingViewType (valueType : FCesiumMetadataValueType) (normalized : Bool) :
    Option ViewType :=
  match componentOf valueType.ComponentType with
  | none => none
  | some c =>
    match elementOf c valueType.Type_ with
    | none => none
    | some e => some ⟨e, valueType.bIsArray, normalized && c.isInteger⟩

/-- A callback that computes `f` and appends the view it was invoked on to a log. -/
def logged {Value R : Type} (f : TypedView Value → R) :
    TypedView Value → StateM (List (TypedView Value)) R :=
  fun v log => (f v, log ++ [v])

/-- A sample view over integer values: two elements, the second without a value. -/
def sampleView : PropertyTablePropertyView Int :=
  { status := .Valid
    size := 2
    arrayCount := 0
    get := fun i => if i = 0 then some 7 else none
    getRaw := fun i => 100 + i }

/-- A sample property: a non-normalized scalar `int32` view with its descriptor. -/
def sampleProperty : FCesiumPropertyTableProperty Int :=
  { _property := some ⟨⟨.scalar .int32, false, false⟩, sampleView⟩
    _valueType := ⟨.Scalar, .Int32, false⟩
    _normalized := false }

/-- A sample property with an invalid descriptor (type `Enum`) over a stored view. -/
def sampleInvalidProperty : FCesiumPropertyTableProperty Int :=
  { _property := some ⟨⟨.scalar .int32, false, false⟩, sampleView⟩
    _valueType := ⟨.Enum, .Int32, true⟩
    _normalized := true }

/-- The views the dispatcher can hand to the callback once `bIsArray` and the
normalized flag are fixed: the invalid view, or the stored view when its instantiation
matches the numeric descriptor, is the boolean view under a `Boolean` descriptor, or
is the string view under a `Boolean` or `String` descriptor. -/
def SelectedFor {Value : Type} [Inhabited Value] (property : StdAny Value) (vt : FCesiumMetadataValueType)
    (normalized : Bool) (view : TypedView Value) : Prop :=
  view = invalidView ∨
    (property = some view ∧
      (matchingViewType vt normalized = some view.type ∨
        (vt.Type_ = .Boolean ∧ view.type = ⟨.bool, vt.bIsArray, false⟩) ∨
        ((vt.Type_ = .Boolean ∨ vt.Type_ = .String) ∧
          view.type = ⟨.string_view, vt.bIsArray, false⟩)))

/-- The property with `getRaw` of the stored view replaced by `g`. -/
def FCesiumPropertyTableProperty.withGetRaw {Value : Type}
    (Property : FCesiumPropertyTableProperty Value) (g : Int → Value) :
    FCesiumPropertyTableProperty Value :=
  { Property with
    _property := Property._property.map
      (fun stored => { stored with view := { stored.view with getRaw := g } }) }

/-- A sample array view: one element, an array value. -/
def sampleArrayView : PropertyTablePropertyView Int :=
  { status := .Valid
    size := 1
    arrayCount := 3
    get := fun _ => some 42
    getRaw := fun _ => 42 }

/-- A sample array property: an array view of `float` with its descriptor. -/
def sampleArrayProperty : FCesiumPropertyTableProperty Int :=
  { _property := some ⟨⟨.scalar .float, true, false⟩, sampleArrayView⟩
    _valueType := ⟨.Scalar, .Float32, true⟩
    _normalized := false }

/-- A sample empty property with a default: its view reports
`EmptyPropertyWithDefault` and a size of 2. -/
def sampleEmptyProperty : FCesiumPropertyTableProperty Int :=
  { _property := some ⟨⟨.scalar .int32, false, false⟩,
      { sampleView with status := .EmptyPropertyWithDefault }⟩
    _valueType := ⟨.Scalar, .Int32, false⟩
    _normalized := false }

/-- One invocation of `callback` on the selected view, or the exception of the cast. -/
def invokeOn {Value R : Type} {m : Type → Type} [Monad m]
    (selected : Except bad_any_cast (TypedView Value))
    (callback : TypedView Value → m R) : m (Except bad_any_cast R) :=
  match selected with
  | .ok v => Except.ok <$> callback v
  | .error e => pure (.error e)

/-- The view handed to the callback: the dispatcher run on the identity callback. -/
def dispatchedView {Value : Type} [Inhabited Value]
    (Property : FCesiumPropertyTableProperty Value) :
    Except bad_any_cast (TypedView Value) :=
  propertyTablePropertyCallback (m := Id) Property._property Property._valueType
    Property._normalized (fun v => v)

/-- The view instantiation a valid descriptor names: the matching instantiation for a
numeric descriptor, the boolean view for `Boolean` and the string view for `String`,
as an array view iff `bIsArray`. -/
def namedViewType (valueType : FCesiumMetadataValueType) (normalized : Bool) :
    Option ViewType :=
  match valueType.Type_ with
  | .Boolean => some ⟨.bool, valueType.bIsArray, false⟩
  | .String => some ⟨.string_view, valueType.bIsArray, false⟩
  | _ => matchingViewType valueType normalized

/-- The seven numeric element shapes, over a component. -/
def numericShapes : List (ComponentT → ElementT) :=
  [.scalar, .vec 2, .vec 3, .vec 4, .mat 2, .mat 3, .mat 4]

/-- The eight integer components. -/
def integerComponents : List ComponentT :=
  [.int8, .uint8, .int16, .uint16, .int32, .uint32, .int64, .uint64]

/-- The two floating-point components. -/
def floatComponents : List ComponentT := [.float, .double]

/-- The view instantiations as the specification counts them: 7 shapes x 2 array
modes x (8 integer components x 2 normalization modes + 2 float components), and the
4 boolean and string views. -/
def viewInstantiations : List ViewType :=
  (numericShapes.flatMap fun shape =>
    [false, true].flatMap fun array =>
      (integerComponents.flatMap fun c =>
          [⟨shape c, array, false⟩, ⟨shape c, array, true⟩])
        ++ floatComponents.map fun c => ⟨shape c, array, false⟩)
    ++ [⟨.bool, false, false⟩, ⟨.bool, true, false⟩,
        ⟨.string_view, false, false⟩, ⟨.string_view, true, false⟩]

/-- The type of the descriptor naming an element type. -/
def typeOfElement : ElementT → ECesiumMetadataType
  | .scalar _ => .Scalar
  | .vec N _ => if N = 2 then .Vec2 else if N = 3 then .Vec3 else .Vec4
  | .mat N _ => if N = 2 then .Mat2 else if N = 3 then .Mat3 else .Mat4
  | .bool => .Boolean
  | .string_view => .String

/-- The component type of the descriptor naming a component. -/
def componentTypeOf : ComponentT → ECesiumMetadataComponentType
  | .int8 => .Int8
  | .uint8 => .Uint8
  | .int16 => .Int16
  | .uint16 => .Uint16
  | .int32 => .Int32
  | .uint32 => .Uint32
  | .int64 => .Int64
  | .uint64 => .Uint64
  | .float => .Float32
  | .double => .Float64

/-- The component type of the descriptor naming an element type (`None` for the
boolean and string elements). -/
def componentTypeOfElement : ElementT → ECesiumMetadataComponentType
  | .scalar c | .vec _ c | .mat _ c => componentTypeOf c
  | _ => .None

/-- A descriptor naming a view instantiation. -/
def descriptorOf (T : ViewType) : FCesiumMetadataValueType :=
  ⟨typeOfElement T.element, componentTypeOfElement T.element, T.array⟩

/-- A sample stored string view. -/
def sampleStringView : TypedView Int :=
  ⟨⟨.string_view, false, false⟩, sampleView⟩

/-- A sample stored boolean view. -/
def sampleBooleanView : TypedView Int :=
  ⟨⟨.bool, false, false⟩, sampleView⟩

end CesiumPropertyTableProperty

/-!
# Sub-level georeference switching (CesiumSubLevelComponent.cpp)

A state-passing embedding of `UCesiumSubLevelComponent`. The world holds the
component, the georeference actors and the actors it points to, and a record of the
calls made into the host and into other classes. Pointers are optional identifiers
(`nullptr` is `none`); `double` is an arbitrary type with the comparison `!=`, which is
not assumed to be the negation of equality.
-/

namespace CesiumSubLevelComponent

/-- The identity of an actor (`AActor*`, `ALevelInstance*`). -/
abbrev ActorId := Nat

/-- The identity of a georeference actor (`ACesiumGeoreference*`). -/
abbrev GeoreferenceId := Nat

/-- Three coordinates: `FVector`, `glm::dvec3`. -/
structure FVector (double : Type) where
  X : double
  Y : double
  Z : double

/-- The engine enum `ELevelInstanceRuntimeBehavior`. -/
inductive ELevelInstanceRuntimeBehavior
  | None
  | Embedded
  | Partitioned
  | LevelStreaming
  deriving DecidableEq, Repr

/-- What the component reads and writes of its owning actor: whether it is valid
(`IsValid`), whether it is an `ALevelInstance` (`Cast<ALevelInstance>` succeeds), the
two level-instance settings and the actor transform. -/
structure AActor (Transform : Type) where
  IsValid : Bool
  IsLevelInstance : Bool
  IsSpatiallyLoaded : Bool
  DesiredRuntimeBehavior : ELevelInstanceRuntimeBehavior
  ActorTransform : Transform

/-- What the component reads of a `UCesiumSubLevelSwitcherComponent`: `GetCurrent()`
and `GetTarget()`. -/
structure UCesiumSubLevelSwitcherComponent where
  Current : Option ActorId
  Target : Option ActorId
  deriving DecidableEq, Repr

/-- What the component reads and writes of an `ACesiumGeoreference`: whether it is
valid (`IsValid`), its origin, and its switcher component
(`FindComponentByClass<UCesiumSubLevelSwitcherComponent>()`), if it has one. -/
structure ACesiumGeoreference (double : Type) where
  IsValid : Bool
  OriginLongitude : double
  OriginLatitude : double
  OriginHeight : double
  Switcher : Option UCesiumSubLevelSwitcherComponent

/-- The fields of `UCesiumSubLevelComponent`, its owner (`GetOwner()`) and whether it
has the flag `RF_Transient`. -/
structure UCesiumSubLevelComponent (double : Type) where
  Enabled : Bool
  OriginLongitude : double
  OriginLatitude : double
  OriginHeight : double
  LoadRadius : double
  Georeference : Option GeoreferenceId
  ResolvedGeoreference : Option GeoreferenceId
  Owner : Option ActorId
  RF_Transient : Bool
  bRenderStateCreated : Bool

/-- An object on which `Modify()` is called: an actor or the component itself. -/
inductive UObjectRef
  | actor (a : ActorId)
  | component
  deriving DecidableEq, Repr

/-- The calls the component makes that are recorded: the entry of
`UpdateGeoreferenceIfSubLevelIsActive`, and the calls into the georeference, into the
switcher of a georeference, and `Modify()`. -/
inductive Call (double : Type)
  | UpdateGeoreferenceIfSubLevelIsActive
  | SetGeoreferenceOriginLongitudeLatitudeHeight (g : GeoreferenceId) (v : FVector double)
  | RegisterSubLevel (g : GeoreferenceId) (pSubLevel : ActorId)
  | UnregisterSubLevel (g : GeoreferenceId) (pSubLevel : ActorId)
  | Modify (object : UObjectRef)

/-- The component and the objects around it. `defaultGeoreference` is what
`ACesiumGeoreference::GetDefaultGeoreference(this)` returns. -/
structure World (double Transform : Type) where
  component : UCesiumSubLevelComponent double
  georeferences : GeoreferenceId → ACesiumGeoreference double
  actors : ActorId → AActor Transform
  defaultGeoreference : Option GeoreferenceId
  calls : List (Call double)

/-- The code outside the sources the component calls into: the effect of
`RegisterSubLevel` and `UnregisterSubLevel` on a switcher, and the geodesy of
`PlaceGeoreferenceOriginAtSubLevelOrigin`: the cartographic position of the centre of
the level (in degrees and metres), when there is one, and the transform of the level
instance relative to the new origin. -/
structure Host (double Transform : Type) where
  RegisterSubLevel :
    UCesiumSubLevelSwitcherComponent → ActorId → UCesiumSubLevelSwitcherComponent
  UnregisterSubLevel :
    UCesiumSubLevelSwitcherComponent → ActorId → UCesiumSubLevelSwitcherComponent
  cartographicOfLevelCenter :
    World double Transform → GeoreferenceId → ActorId → Option (FVector double)
  newActorTransform : World double Transform → GeoreferenceId → ActorId → Transform

section Component

variable {double Transform : Type}

/-- Appends a call to the record. -/
def World.record (w : World double Transform) (c : Call double) : World double Transform :=
  { w with calls := w.calls ++ [c] }

/-- The test `IsValid(p)` on a georeference pointer. -/
def IsValid (w : World double Transform) (p : Option GeoreferenceId) : Bool :=
  match p with
  | none => false
  | some g => (w.georeferences g).IsValid

/-- The test `IsValid(pOwner)` on an actor pointer. -/
def IsValidActor (w : World double Transform) (p : Option ActorId) : Bool :=
  match p with
  | none => false
  | some a => (w.actors a).IsValid

/-- Source lines 14, `GetEnabled`. -/
def GetEnabled (w : World double Transform) : Bool := w.component.Enabled

/-- Source lines 18-20, `GetOriginLongitude`. -/
def GetOriginLongitude (w : World double Transform) : double := w.component.OriginLongitude

/-- Source lines 27-29, `GetOriginLatitude`. -/
def GetOriginLatitude (w : World double Transform) : double := w.component.OriginLatitude

/-- Source lines 36-38, `GetOriginHeight`. -/
def GetOriginHeight (w : World double Transform) : double := w.component.OriginHeight

/-- Source lines 45-47, `GetLoadRadius`. -/
def GetLoadRadius (w : World double Transform) : double := w.component.LoadRadius

/-- Source lines 53-55, `GetGeoreference`. -/
def GetGeoreference (w : World double Transform) : Option GeoreferenceId :=
  w.component.Georeference

/-- Source lines 71-73, `GetResolvedGeoreference`. -/
def GetResolvedGeoreference (w : World double Transform) : Option GeoreferenceId :=
  w.component.ResolvedGeoreference

/-- Source lines 367-377, `_getLevelInstance`: `Cast<ALevelInstance>(GetOwner())`. -/
def _getLevelInstance (w : World double Transform) : Option ActorId :=
  match w.component.Owner with
  | none => none
  | some a => if (w.actors a).IsLevelInstance then some a else none

/-- Source lines 356-365, `_getSwitcher`: the switcher of the resolved georeference,
with the georeference it belongs to. -/
def _getSwitcher (w : World double Transform) :
    Option (GeoreferenceId × UCesiumSubLevelSwitcherComponent) :=
  if !IsValid w w.component.ResolvedGeoreference || w.component.RF_Transient then none
  else
    match w.component.ResolvedGeoreference with
    | none => none
    | some g =>
      match (w.georeferences g).Switcher with
      | none => none
      | some pSwitcher => some (g, pSwitcher)

/-- The call `pSwitcher->RegisterSubLevel(pSubLevel)` on the switcher of `g`. -/
def RegisterSubLevel (host : Host double Transform) (w : World double Transform)
    (g : GeoreferenceId) (pSubLevel : ActorId) : World double Transform :=
  { w with
    georeferences := Function.update w.georeferences g
      ({ w.georeferences g with
        Switcher := (w.georeferences g).Switcher.map
          (fun pSwitcher => host.RegisterSubLevel pSwitcher pSubLevel) })
    calls := w.calls ++ [.RegisterSubLevel g pSubLevel] }

/-- The call `pSwitcher->UnregisterSubLevel(pSubLevel)` on the switcher of `g`. -/
def UnregisterSubLevel (host : Host double Transform) (w : World double Transform)
    (g : GeoreferenceId) (pSubLevel : ActorId) : World double Transform :=
  { w with
    georeferences := Function.update w.georeferences g
      ({ w.georeferences g with
        Switcher := (w.georeferences g).Switcher.map
          (fun pSwitcher => host.UnregisterSubLevel pSwitcher pSubLevel) })
    calls := w.calls ++ [.UnregisterSubLevel g pSubLevel] }

/-- Modelled from the spec: `ACesiumGeoreference::SetGeoreferenceOriginLongitudeLatitudeHeight`
is defined outside the sources; it sets the origin of the georeference to the given
longitude, latitude and height. -/
def SetGeoreferenceOriginLongitudeLatitudeHeight (w : World double Transform)
    (g : GeoreferenceId) (v : FVector double) : World double Transform :=
  { w with
    georeferences := Function.update w.georeferences g
      ({ w.georeferences g with
        OriginLongitude := v.X, OriginLatitude := v.Y, OriginHeight := v.Z })
    calls := w.calls ++ [.SetGeoreferenceOriginLongitudeLatitudeHeight g v] }

/-- Source lines 75-88, `ResolveGeoreference`: the returned pointer and the world. -/
def ResolveGeoreference (w : World double Transform) :
    Option GeoreferenceId × World double Transform :=
  if IsValid w w.component.ResolvedGeoreference then (w.component.ResolvedGeoreference, w)
  else
    let w :=
      if IsValid w w.component.Georeference then
        { w with component :=
          { w.component with ResolvedGeoreference := w.component.Georeference } }
      else
        { w with component :=
          { w.component with ResolvedGeoreference := w.defaultGeoreference } }
    (w.component.ResolvedGeoreference, w)

/-- Source lines 90-101, `InvalidateResolvedGeoreference`. -/
def InvalidateResolvedGeoreference (host : Host double Transform)
    (w : World double Transform) : World double Transform :=
  let w :=
    if IsValid w w.component.ResolvedGeoreference then
      match _getSwitcher w with
      | some (g, _) =>
        match _getLevelInstance w with
        | some pOwner => UnregisterSubLevel host w g pOwner
        | none => w
      | none => w
    else w
  { w with component := { w.component with ResolvedGeoreference := none } }

/-- Source lines 198-230, `UpdateGeoreferenceIfSubLevelIsActive`. -/
def UpdateGeoreferenceIfSubLevelIsActive [BEq double] (w : World double Transform) :
    World double Transform :=
  let w := w.record .UpdateGeoreferenceIfSubLevelIsActive
  match _getLevelInstance w with
  | none => w
  | some pOwner =>
    match w.component.ResolvedGeoreference with
    | none => w
    | some resolved =>
      if !(w.georeferences resolved).IsValid then w
      else
        match _getSwitcher w with
        | none => w
        | some (_, pSwitcher) =>
          let pCurrent := pSwitcher.Current
          let pTarget := pSwitcher.Target
          if pCurrent = some pOwner ∨ (pCurrent = none ∧ pTarget = some pOwner) then
            if w.component.OriginLongitude != (w.georeferences resolved).OriginLongitude ||
                w.component.OriginLatitude != (w.georeferences resolved).OriginLatitude ||
                w.component.OriginHeight != (w.georeferences resolved).OriginHeight then
              SetGeoreferenceOriginLongitudeLatitudeHeight w resolved
                ⟨w.component.OriginLongitude, w.component.OriginLatitude,
                  w.component.OriginHeight⟩
            else w
          else w

/-- Source lines 103-113, `SetOriginLongitudeLatitudeHeight`. -/
def SetOriginLongitudeLatitudeHeight [BEq double] (w : World double Transform)
    (longitudeLatitudeHeight : FVector double) : World double Transform :=
  if w.component.OriginLongitude != longitudeLatitudeHeight.X ||
      w.component.OriginLatitude != longitudeLatitudeHeight.Y ||
      w.component.OriginHeight != longitudeLatitudeHeight.Z then
    UpdateGeoreferenceIfSubLevelIsActive
      { w with component :=
        { w.component with
          OriginLongitude := longitudeLatitudeHeight.X
          OriginLatitude := longitudeLatitudeHeight.Y
          OriginHeight := longitudeLatitudeHeight.Z } }
  else w

/-- Source lines 117-194, `PlaceGeoreferenceOriginAtSubLevelOrigin` (editor build). -/
def PlaceGeoreferenceOriginAtSubLevelOrigin [BEq double] (host : Host double Transform)
    (w : World double Transform) : World double Transform :=
  let (pGeoreference, w) := ResolveGeoreference w
  match pGeoreference with
  | none => w
  | some g =>
    if !(w.georeferences g).IsValid then w
    else
      match w.component.Owner with
      | none => w
      | some pOwner =>
        if !(w.actors pOwner).IsValid then w
        else
          match host.cartographicOfLevelCenter w g pOwner with
          | none => w
          | some cartographic =>
            let newTransform := host.newActorTransform w g pOwner
            let w := w.record (.Modify (.actor pOwner))
            let w :=
              { w with
                actors := Function.update w.actors pOwner
                  ({ w.actors pOwner with ActorTransform := newTransform }) }
            let w := w.record (.Modify .component)
            SetOriginLongitudeLatitudeHeight w cartographic

/-- Source lines 252-270, `PostEditChangeProperty` (editor build); the event carries
the name of the changed property, if any. -/
def PostEditChangeProperty [BEq double] (w : World double Transform)
    (Property : Option String) : World double Transform :=
  match Property with
  | none => w
  | some propertyName =>
    if propertyName = "OriginLongitude" ∨ propertyName = "OriginLatitude" ∨
        propertyName = "OriginHeight" then
      UpdateGeoreferenceIfSubLevelIsActive w
    else w

/-- Source lines 274-288, `BeginPlay`. -/
def BeginPlay (host : Host double Transform) (w : World double Transform) :
    World double Transform :=
  let w := (ResolveGeoreference w).2
  match _getSwitcher w with
  | none => w
  | some (g, _) =>
    match _getLevelInstance w with
    | none => w
    | some pLevel => RegisterSubLevel host w g pLevel

/-- Source lines 290-341, `OnRegister` (editor build). -/
def OnRegister [BEq double] (host : Host double Transform) (w : World double Transform) :
    World double Transform :=
  let w := { w with component := { w.component with bRenderStateCreated := true } }
  match _getLevelInstance w with
  | none => w
  | some pOwner =>
    let w :=
      if (w.actors pOwner).IsSpatiallyLoaded ∨
          (w.actors pOwner).DesiredRuntimeBehavior ≠ .LevelStreaming then
        let w := w.record (.Modify (.actor pOwner))
        let w :=
          if (w.actors pOwner).IsSpatiallyLoaded then
            { w with
              actors := Function.update w.actors pOwner
                ({ w.actors pOwner with IsSpatiallyLoaded := false }) }
          else w
        { w with
          actors := Function.update w.actors pOwner
            ({ w.actors pOwner with DesiredRuntimeBehavior := .LevelStreaming }) }
      else w
    let w := (ResolveGeoreference w).2
    let w :=
      match _getSwitcher w with
      | some (g, _) => RegisterSubLevel host w g pOwner
      | none => w
    UpdateGeoreferenceIfSubLevelIsActive w

/-- Source lines 343-354, `OnUnregister`. -/
def OnUnregister (host : Host double Transform) (w : World double Transform) :
    World double Transform :=
  match _getLevelInstance w with
  | none => w
  | some pOwner =>
    match _getSwitcher w with
    | some (g, _) => UnregisterSubLevel host w g pOwner
    | none => w

/-- Whether a recorded call is `RegisterSubLevel` or `UnregisterSubLevel`. -/
def Call.isRegistration : Call double → Bool
  | .RegisterSubLevel _ _ => true
  | .UnregisterSubLevel _ _ => true
  | _ => false

/-- Whether a recorded call is `Modify()`. -/
def Call.isModify : Call double → Bool
  | .Modify _ => true
  | _ => false

/-- Whether a recorded call sets the origin of a georeference. -/
def Call.isSetOrigin : Call double → Bool
  | .SetGeoreferenceOriginLongitudeLatitudeHeight _ _ => true
  | _ => false

/-- Whether a recorded call is the entry of `UpdateGeoreferenceIfSubLevelIsActive`. -/
def Call.isUpdate : Call double → Bool
  | .UpdateGeoreferenceIfSubLevelIsActive => true
  | _ => false

/-- The calls recorded between the world `w` and a later world `w'`. -/
def callsSince (w w' : World double Transform) : List (Call double) :=
  w'.calls.drop w.calls.length

/-- The sub-level is active: it is the current level of the switcher, or it is the
target level and there is no current level. -/
abbrev IsActive (pSwitcher : UCesiumSubLevelSwitcherComponent) (pOwner : ActorId) : Prop :=
  pSwitcher.Current = some pOwner ∨
    (pSwitcher.Current = none ∧ pSwitcher.Target = some pOwner)

/-- At least one of the three origin values of the component differs (`!=`) from that
of the georeference `g`. -/
abbrev OriginDiffers [BEq double] (w : World double Transform) (g : GeoreferenceId) : Prop :=
  (w.component.OriginLongitude != (w.georeferences g).OriginLongitude) = true ∨
    (w.component.OriginLatitude != (w.georeferences g).OriginLatitude) = true ∨
    (w.component.OriginHeight != (w.georeferences g).OriginHeight) = true

end Component


section Steps

variable {double Transform : Type}

/-- The editor-only block of `OnRegister` (source lines 303-332) on the owner
`pOwner`, as a step of its own. -/
def applySubLevelSettings (w : World double Transform) (pOwner : ActorId) :
    World double Transform :=
  if (w.actors pOwner).IsSpatiallyLoaded ∨
      (w.actors pOwner).DesiredRuntimeBehavior ≠ .LevelStreaming then
    let w := w.record (.Modify (.actor pOwner))
    let w :=
      if (w.actors pOwner).IsSpatiallyLoaded then
        { w with
          actors := Function.update w.actors pOwner
            ({ w.actors pOwner with IsSpatiallyLoaded := false }) }
      else w
    { w with
      actors := Function.update w.actors pOwner
        ({ w.actors pOwner with DesiredRuntimeBehavior := .LevelStreaming }) }
  else w

/-- The end of `OnRegister` (source lines 334-340), as a step of its own: resolution,
registration with the switcher and the update of the georeference. -/
def resolveRegisterUpdate [BEq double] (host : Host double Transform)
    (w : World double Transform) (pOwner : ActorId) : World double Transform :=
  UpdateGeoreferenceIfSubLevelIsActive
    (match _getSwitcher (ResolveGeoreference w).2 with
    | some (g, _) => RegisterSubLevel host (ResolveGeoreference w).2 g pOwner
    | none => (ResolveGeoreference w).2)

end Steps

/-- A sample host: registration leaves the switcher as it is, the level centre is at
(1, 2, 3) and the new transform is 9. -/
def sampleHost : Host Int Nat :=
  { RegisterSubLevel := fun pSwitcher _ => pSwitcher
    UnregisterSubLevel := fun pSwitcher _ => pSwitcher
    cartographicOfLevelCenter := fun _ _ _ => some ⟨1, 2, 3⟩
    newActorTransform := fun _ _ _ => 9 }

/-- A sample world: the component, with origin (10, 20, 30), is owned by the level
instance 5, spatially loaded and partitioned; its georeference 1, with origin
(0, 0, 0), is resolved and has a switcher whose current level is 5. -/
def sampleWorld : World Int Nat :=
  { component :=
      { Enabled := true
        OriginLongitude := 10
        OriginLatitude := 20
        OriginHeight := 30
        LoadRadius := 1000
        Georeference := some 1
        ResolvedGeoreference := some 1
        Owner := some 5
        RF_Transient := false
        bRenderStateCreated := false }
    georeferences := fun _ =>
      { IsValid := true
        OriginLongitude := 0
        OriginLatitude := 0
        OriginHeight := 0
        Switcher := some ⟨some 5, none⟩ }
    actors := fun _ =>
      { IsValid := true
        IsLevelInstance := true
        IsSpatiallyLoaded := true
        DesiredRuntimeBehavior := .Partitioned
        ActorTransform := 0 }
    defaultGeoreference := none
    calls := [] }

/-- The sample world with a transient component. -/
def sampleTransientWorld : World Int Nat :=
  { sampleWorld with component := { sampleWorld.component with RF_Transient := true } }

end CesiumSubLevelComponent

/-!
# Resuming a Cesium ion session (CesiumIonSession.cpp)

A state-passing embedding of `CesiumIonSession::resume`. The editor state holds the
session, the map of user access tokens of the editor settings, and a record of the
requests issued and of the events broadcast. The continuations attached to the
request run later, on the main thread, and are not part of the call of `resume`.
-/

namespace CesiumIon

/-- What the session reads of a `UCesiumIonServer`: its identity, the key of the map
of user access tokens, and its `ApiUrl`. -/
structure UCesiumIonServer where
  key : Nat
  ApiUrl : String
  deriving DecidableEq, Repr

/-- A `CesiumIonClient::Connection`, built from an access token and an API URL. -/
structure Connection where
  accessToken : String
  apiUrl : String
  deriving DecidableEq, Repr

/-- The fields of `CesiumIonSession` that `resume` reads and writes. `_pServer` is a
weak pointer: `none` when it is not valid. -/
structure CesiumIonSession where
  _pServer : Option UCesiumIonServer
  _connection : Option Connection
  _isConnecting : Bool
  _isResuming : Bool
  deriving DecidableEq, Repr

/-- A request issued to the server: `Connection::me()`. -/
inductive Request
  | me (connection : Connection)
  deriving DecidableEq, Repr

/-- An event of the session that can be broadcast. -/
inductive Event
  | ConnectionUpdated
  | ProfileUpdated
  | AssetsUpdated
  | TokensUpdated
  deriving DecidableEq, Repr

/-- The session in the editor: the session itself, `UserAccessTokenMap` of the editor
settings, the requests issued and the events broadcast. -/
structure Editor where
  session : CesiumIonSession
  UserAccessTokenMap : Nat → Option String
  requests : List Request
  broadcasts : List Event

/-- Modelled from the spec: `isConnected()` is declared in a header that is not part
of the sources; the session is connected when it has a connection. -/
def isConnected (session : CesiumIonSession) : Bool := session._connection.isSome

/-- Modelled from the spec: `isConnecting()` is declared in a header that is not part
of the sources; it reads the flag `_isConnecting`. -/
def isConnecting (session : CesiumIonSession) : Bool := session._isConnecting

/-- Modelled from the spec: `isResuming()` is declared in a header that is not part of
the sources; it reads the flag `_isResuming`. -/
def isResuming (session : CesiumIonSession) : Bool := session._isResuming

/-- Source lines 137-176, `CesiumIonSession::resume`. -/
def resume (e : Editor) : Editor :=
  if e.session._pServer.isNone || isConnecting e.session || isConnected e.session ||
      isResuming e.session then e
  else
    match e.session._pServer with
    | none => e
    | some pServer =>
      match e.UserAccessTokenMap pServer.key with
      | none => e
      | some pUserAccessToken =>
        if pUserAccessToken.isEmpty then e
        else
          let connection : Connection := ⟨pUserAccessToken, pServer.ApiUrl⟩
          { e with
            session := { e.session with _isResuming := true, _connection := some connection }
            requests := e.requests ++ [.me connection] }

/-- The settings hold no user access token for the server of the session, or an
empty one. -/
def NoUserAccessToken (e : Editor) : Prop :=
  ∀ pServer, e.session._pServer = some pServer →
    e.UserAccessTokenMap pServer.key = none ∨ e.UserAccessTokenMap pServer.key = some ""

/-- A sample editor state: a session that is resuming, for the server 1, and no user
access token in the settings. -/
def sampleResumingEditor : Editor :=
  { session :=
      { _pServer := some ⟨1, "https://api.cesium.com"⟩
        _connection := none
        _isConnecting := false
        _isResuming := true }
    UserAccessTokenMap := fun _ => none
    requests := []
    broadcasts := [] }

/-- A sample editor state: an idle session for the server 1, and no user access token
in the settings. -/
def sampleIdleEditor : Editor :=
  { sampleResumingEditor with
    session := { sampleResumingEditor.session with _isResuming := false } }

end CesiumIon

namespace CesiumPropertyTableProperty

section Invocation

variable {Value R : Type} {m : Type → Type} [Monad m]

theorem callback_any_cast_eq (T : ViewType) (property : StdAny Value)
    (callback : TypedView Value → m R) :
    callback_any_cast T property callback
      = invokeOn (callback_any_cast (m := Id) T property (fun v => v)) callback := by
  unfold callback_any_cast invokeOn
  cases any_cast T property <;> rfl

end Invocation

section Selection

variable {Value R : Type} [Inhabited Value] {m : Type → Type} [Monad m]

theorem callback_invalid_eq (callback : TypedView Value → m R) :
    callback_invalid callback
      = invokeOn (callback_invalid (m := Id) (fun v => v)) callback := rfl

theorem scalar_eq (N : Bool) (property : StdAny Value) (vt : FCesiumMetadataValueType)
    (callback : TypedView Value → m R) :
    scalarPropertyTablePropertyCallback N property vt callback
      = invokeOn (scalarPropertyTablePropertyCallback (m := Id) N property vt (fun v => v))
          callback := by
  unfold scalarPropertyTablePropertyCallback
  cases vt.ComponentType <;> first | exact callback_any_cast_eq _ _ _ | rfl

theorem scalarArray_eq (N : Bool) (property : StdAny Value) (vt : FCesiumMetadataValueType)
    (callback : TypedView Value → m R) :
    scalarArrayPropertyTablePropertyCallback N property vt callback
      = invokeOn
          (scalarArrayPropertyTablePropertyCallback (m := Id) N property vt (fun v => v))
          callback := by
  unfold scalarArrayPropertyTablePropertyCallback
  cases vt.ComponentType <;> first | exact callback_any_cast_eq _ _ _ | rfl

theorem vecNN_eq (n : Nat) (N : Bool) (property : StdAny Value)
    (vt : FCesiumMetadataValueType) (callback : TypedView Value → m R) :
    vecNPropertyTablePropertyCallbackN n N property vt callback
      = invokeOn (vecNPropertyTablePropertyCallbackN (m := Id) n N property vt (fun v => v))
          callback := by
  unfold vecNPropertyTablePropertyCallbackN
  cases vt.ComponentType <;> first | exact callback_any_cast_eq _ _ _ | rfl

theorem vecNArrayN_eq (n : Nat) (N : Bool) (property : StdAny Value)
    (vt : FCesiumMetadataValueType) (callback : TypedView Value → m R) :
    vecNArrayPropertyTablePropertyCallbackN n N property vt callback
      = invokeOn
          (vecNArrayPropertyTablePropertyCallbackN (m := Id) n N property vt (fun v => v))
          callback := by
  unfold vecNArrayPropertyTablePropertyCallbackN
  cases vt.ComponentType <;> first | exact callback_any_cast_eq _ _ _ | rfl

theorem matNN_eq (n : Nat) (N : Bool) (property : StdAny Value)
    (vt : FCesiumMetadataValueType) (callback : TypedView Value → m R) :
    matNPropertyTablePropertyCallbackN n N property vt callback
      = invokeOn (matNPropertyTablePropertyCallbackN (m := Id) n N property vt (fun v => v))
          callback := by
  unfold matNPropertyTablePropertyCallbackN
  cases vt.ComponentType <;> first | exact callback_any_cast_eq _ _ _ | rfl

theorem matNArrayN_eq (n : Nat) (N : Bool) (property : StdAny Value)
    (vt : FCesiumMetadataValueType) (callback : TypedView Value → m R) :
    matNArrayPropertyTablePropertyCallbackN n N property vt callback
      = invokeOn
          (matNArrayPropertyTablePropertyCallbackN (m := Id) n N property vt (fun v => v))
          callback := by
  unfold matNArrayPropertyTablePropertyCallbackN
  cases vt.ComponentType <;> first | exact callback_any_cast_eq _ _ _ | rfl

theorem vecN_eq (N : Bool) (property : StdAny Value) (vt : FCesiumMetadataValueType)
    (callback : TypedView Value → m R) :
    vecNPropertyTablePropertyCallback N property vt callback
      = invokeOn (vecNPropertyTablePropertyCallback (m := Id) N property vt (fun v => v))
          callback := by
  unfold vecNPropertyTablePropertyCallback
  split_ifs <;> first | exact vecNN_eq _ _ _ _ _ | rfl

theorem vecNArray_eq (N : Bool) (property : StdAny Value) (vt : FCesiumMetadataValueType)
    (callback : TypedView Value → m R) :
    vecNArrayPropertyTablePropertyCallback N property vt callback
      = invokeOn (vecNArrayPropertyTablePropertyCallback (m := Id) N property vt (fun v => v))
          callback := by
  unfold vecNArrayPropertyTablePropertyCallback
  split_ifs <;> first | exact vecNArrayN_eq _ _ _ _ _ | rfl

theorem matN_eq (N : Bool) (property : StdAny Value) (vt : FCesiumMetadataValueType)
    (callback : TypedView Value → m R) :
    matNPropertyTablePropertyCallback N property vt callback
      = invokeOn (matNPropertyTablePropertyCallback (m := Id) N property vt (fun v => v))
          callback := by
  unfold matNPropertyTablePropertyCallback
  split_ifs <;> first | exact matNN_eq _ _ _ _ _ | rfl

theorem matNArray_eq (N : Bool) (property : StdAny Value) (vt : FCesiumMetadataValueType)
    (callback : TypedView Value → m R) :
    matNArrayPropertyTablePropertyCallback N property vt callback
      = invokeOn (matNArrayPropertyTablePropertyCallback (m := Id) N property vt (fun v => v))
          callback := by
  unfold matNArrayPropertyTablePropertyCallback
  split_ifs <;> first | exact matNArrayN_eq _ _ _ _ _ | rfl

theorem arrayStringCase_eq (property : StdAny Value) (callback : TypedView Value → m R) :
    arrayStringCase property callback
      = invokeOn (arrayStringCase (m := Id) property (fun v => v)) callback := by
  unfold arrayStringCase
  split_ifs <;> first | exact callback_any_cast_eq _ _ _ | rfl

theorem stringCase_eq (property : StdAny Value) (callback : TypedView Value → m R) :
    stringCase property callback
      = invokeOn (stringCase (m := Id) property (fun v => v)) callback := by
  unfold stringCase
  split_ifs <;> first | exact callback_any_cast_eq _ _ _ | rfl

theorem array_eq (N : Bool) (property : StdAny Value) (vt : FCesiumMetadataValueType)
    (callback : TypedView Value → m R) :
    arrayPropertyTablePropertyCallback N property vt callback
      = invokeOn (arrayPropertyTablePropertyCallback (m := Id) N property vt (fun v => v))
          callback := by
  unfold arrayPropertyTablePropertyCallback
  cases vt.Type_ <;> simp only [] <;> (try split_ifs) <;>
    first
    | exact scalarArray_eq _ _ _ _
    | exact vecNArray_eq _ _ _ _
    | exact matNArray_eq _ _ _ _
    | exact arrayStringCase_eq _ _
    | exact callback_any_cast_eq _ _ _
    | rfl

/-- The dispatcher invokes the callback on the view it selects and on nothing else:
running it on `callback` is one invocation of `callback` on the dispatched view. -/
theorem propertyTablePropertyCallback_eq (property : StdAny Value)
    (vt : FCesiumMetadataValueType) (normalized : Bool)
    (callback : TypedView Value → m R) :
    propertyTablePropertyCallback property vt normalized callback
      = invokeOn
          (propertyTablePropertyCallback (m := Id) property vt normalized (fun v => v))
          callback := by
  unfold propertyTablePropertyCallback
  cases vt.bIsArray <;> cases normalized <;> cases vt.Type_ <;> simp only [] <;>
    (try split_ifs) <;>
    first
    | exact array_eq _ _ _ _
    | exact scalar_eq _ _ _ _
    | exact vecN_eq _ _ _ _
    | exact matN_eq _ _ _ _
    | exact stringCase_eq _ _
    | exact callback_any_cast_eq _ _ _
    | rfl

end Selection

/-! ## The accessors in terms of the dispatched view -/

section AccessorLemmas

variable {Value R : Type} [Inhabited Value]

/-- A pure callback run through the dispatcher is applied to the dispatched view. -/
theorem callback_on_dispatchedView (Property : FCesiumPropertyTableProperty Value)
    (f : TypedView Value → R) :
    propertyTablePropertyCallback (m := Id) Property._property Property._valueType
        Property._normalized f
      = (match dispatchedView Property with
        | .ok v => .ok (f v)
        | .error e => .error e) := by
  rw [propertyTablePropertyCallback_eq]
  unfold dispatchedView invokeOn
  cases propertyTablePropertyCallback (m := Id) Property._property Property._valueType
    Property._normalized (fun v => v) <;> rfl

/-- An invalid descriptor sends every callback to the invalid view. -/
theorem invalid_descriptor_dispatch {m : Type → Type} [Monad m] (property : StdAny Value)
    (vt : FCesiumMetadataValueType) (normalized : Bool) (h : InvalidValueType vt)
    (callback : TypedView Value → m R) :
    propertyTablePropertyCallback property vt normalized callback
      = Except.ok <$> callback invalidView := by
  obtain ⟨t, c, a⟩ := vt
  unfold InvalidValueType at h
  cases a <;> cases normalized <;> cases t <;> cases c <;>
    simp [isValidType, isNumericType, isNumericComponentType, componentOf] at h <;> rfl

end AccessorLemmas

section DispatchCases

variable {Value : Type} [Inhabited Value]

omit [Inhabited Value] in
theorem callback_any_cast_ok_iff (T : ViewType) (property : StdAny Value)
    (view : TypedView Value) :
    callback_any_cast (m := Id) T property (fun v => v) = .ok view
      ↔ property = some view ∧ view.type = T := by
  unfold callback_any_cast any_cast
  cases property with
  | none => simp
  | some stored =>
    by_cases hT : stored.type = T
    · simp only [hT, if_true, Option.some.injEq]
      constructor
      · intro h
        have h2 : stored = view := by
          have h3 : (Except.ok stored : Except bad_any_cast (TypedView Value)) = .ok view := h
          exact Except.ok.inj h3
        exact ⟨h2, h2 ▸ hT⟩
      · rintro ⟨h, -⟩
        subst h
        rfl
    · simp only [hT, if_false, Option.some.injEq]
      constructor
      · intro h
        have h3 : (Except.error bad_any_cast.thrown : Except bad_any_cast (TypedView Value))
            = .ok view := h
        cases h3
      · rintro ⟨h, h2⟩
        subst h
        exact absurd h2 hT

theorem callback_invalid_ok_iff (view : TypedView Value) :
    callback_invalid (m := Id) (fun v => v) = .ok view ↔ view = invalidView := by
  unfold callback_invalid
  constructor
  · intro h
    have h3 : (Except.ok invalidView : Except bad_any_cast (TypedView Value)) = .ok view := h
    exact (Except.ok.inj h3).symm
  · intro h
    subst h
    rfl

theorem scalar_ok (N : Bool) (property : StdAny Value)
    (vt : FCesiumMetadataValueType) (view : TypedView Value)
    (h : scalarPropertyTablePropertyCallback (m := Id) N property vt (fun v => v) = .ok view) :
    view = invalidView ∨
      (property = some view ∧ ∃ c, componentOf vt.ComponentType = some c ∧
        view.type = ⟨.scalar c, false, N && c.isInteger⟩) := by
  unfold scalarPropertyTablePropertyCallback at h
  cases hc : vt.ComponentType <;> simp only [hc] at h <;>
    simp only [callback_any_cast_ok_iff, callback_invalid_ok_iff] at h <;>
    first
    | exact Or.inl h
    | exact Or.inr ⟨h.1, _, rfl, by simp [ComponentT.isInteger, h.2]⟩

theorem scalarArray_ok (N : Bool) (property : StdAny Value)
    (vt : FCesiumMetadataValueType) (view : TypedView Value)
    (h : scalarArrayPropertyTablePropertyCallback (m := Id) N property vt (fun v => v) = .ok view) :
    view = invalidView ∨
      (property = some view ∧ ∃ c, componentOf vt.ComponentType = some c ∧
        view.type = ⟨.scalar c, true, N && c.isInteger⟩) := by
  unfold scalarArrayPropertyTablePropertyCallback at h
  cases hc : vt.ComponentType <;> simp only [hc] at h <;>
    simp only [callback_any_cast_ok_iff, callback_invalid_ok_iff] at h <;>
    first
    | exact Or.inl h
    | exact Or.inr ⟨h.1, _, rfl, by simp [ComponentT.isInteger, h.2]⟩

theorem vecNN_ok (n : Nat) (N : Bool) (property : StdAny Value)
    (vt : FCesiumMetadataValueType) (view : TypedView Value)
    (h : vecNPropertyTablePropertyCallbackN (m := Id) n N property vt (fun v => v) = .ok view) :
    view = invalidView ∨
      (property = some view ∧ ∃ c, componentOf vt.ComponentType = some c ∧
        view.type = ⟨.vec n c, false, N && c.isInteger⟩) := by
  unfold vecNPropertyTablePropertyCallbackN at h
  cases hc : vt.ComponentType <;> simp only [hc] at h <;>
    simp only [callback_any_cast_ok_iff, callback_invalid_ok_iff] at h <;>
    first
    | exact Or.inl h
    | exact Or.inr ⟨h.1, _, rfl, by simp [ComponentT.isInteger, h.2]⟩

theorem vecNArrayN_ok (n : Nat) (N : Bool) (property : StdAny Value)
    (vt : FCesiumMetadataValueType) (view : TypedView Value)
    (h : vecNArrayPropertyTablePropertyCallbackN (m := Id) n N property vt (fun v => v) = .ok view) :
    view = invalidView ∨
      (property = some view ∧ ∃ c, componentOf vt.ComponentType = some c ∧
        view.type = ⟨.vec n c, true, N && c.isInteger⟩) := by
  unfold vecNArrayPropertyTablePropertyCallbackN at h
  cases hc : vt.ComponentType <;> simp only [hc] at h <;>
    simp only [callback_any_cast_ok_iff, callback_invalid_ok_iff] at h <;>
    first
    | exact Or.inl h
    | exact Or.inr ⟨h.1, _, rfl, by simp [ComponentT.isInteger, h.2]⟩

theorem matNN_ok (n : Nat) (N : Bool) (property : StdAny Value)
    (vt : FCesiumMetadataValueType) (view : TypedView Value)
    (h : matNPropertyTablePropertyCallbackN (m := Id) n N property vt (fun v => v) = .ok view) :
    view = invalidView ∨
      (property = some view ∧ ∃ c, componentOf vt.ComponentType = some c ∧
        view.type = ⟨.mat n c, false, N && c.isInteger⟩) := by
  unfold matNPropertyTablePropertyCallbackN at h
  cases hc : vt.ComponentType <;> simp only [hc] at h <;>
    simp only [callback_any_cast_ok_iff, callback_invalid_ok_iff] at h <;>
    first
    | exact Or.inl h
    | exact Or.inr ⟨h.1, _, rfl, by simp [ComponentT.isInteger, h.2]⟩

theorem matNArrayN_ok (n : Nat) (N : Bool) (property : StdAny Value)
    (vt : FCesiumMetadataValueType) (view : TypedView Value)
    (h : matNArrayPropertyTablePropertyCallbackN (m := Id) n N property vt (fun v => v) = .ok view) :
    view = invalidView ∨
      (property = some view ∧ ∃ c, componentOf vt.ComponentType = some c ∧
        view.type = ⟨.mat n c, true, N && c.isInteger⟩) := by
  unfold matNArrayPropertyTablePropertyCallbackN at h
  cases hc : vt.ComponentType <;> simp only [hc] at h <;>
    simp only [callback_any_cast_ok_iff, callback_invalid_ok_iff] at h <;>
    first
    | exact Or.inl h
    | exact Or.inr ⟨h.1, _, rfl, by simp [ComponentT.isInteger, h.2]⟩

theorem vecN_ok (N : Bool) (property : StdAny Value)
    (vt : FCesiumMetadataValueType) (view : TypedView Value)
    (h : vecNPropertyTablePropertyCallback (m := Id) N property vt (fun v => v) = .ok view) :
    view = invalidView ∨
      (property = some view ∧
        matchingViewType ⟨vt.Type_, vt.ComponentType, false⟩ N = some view.type) := by
  unfold vecNPropertyTablePropertyCallback at h
  split_ifs at h with h2 h3 h4
  · rcases vecNN_ok _ _ _ _ _ h with h | ⟨hp, c, hc, hty⟩
    · exact Or.inl h
    · exact Or.inr ⟨hp, by simp [matchingViewType, hc, h2, elementOf, hty]⟩
  · rcases vecNN_ok _ _ _ _ _ h with h | ⟨hp, c, hc, hty⟩
    · exact Or.inl h
    · exact Or.inr ⟨hp, by simp [matchingViewType, hc, h3, elementOf, hty]⟩
  · rcases vecNN_ok _ _ _ _ _ h with h | ⟨hp, c, hc, hty⟩
    · exact Or.inl h
    · exact Or.inr ⟨hp, by simp [matchingViewType, hc, h4, elementOf, hty]⟩
  · exact Or.inl ((callback_invalid_ok_iff view).1 h)

theorem vecNArray_ok (N : Bool) (property : StdAny Value)
    (vt : FCesiumMetadataValueType) (view : TypedView Value)
    (h : vecNArrayPropertyTablePropertyCallback (m := Id) N property vt (fun v => v) = .ok view) :
    view = invalidView ∨
      (property = some view ∧
        matchingViewType ⟨vt.Type_, vt.ComponentType, true⟩ N = some view.type) := by
  unfold vecNArrayPropertyTablePropertyCallback at h
  split_ifs at h with h2 h3 h4
  · rcases vecNArrayN_ok _ _ _ _ _ h with h | ⟨hp, c, hc, hty⟩
    · exact Or.inl h
    · exact Or.inr ⟨hp, by simp [matchingViewType, hc, h2, elementOf, hty]⟩
  · rcases vecNArrayN_ok _ _ _ _ _ h with h | ⟨hp, c, hc, hty⟩
    · exact Or.inl h
    · exact Or.inr ⟨hp, by simp [matchingViewType, hc, h3, elementOf, hty]⟩
  · rcases vecNArrayN_ok _ _ _ _ _ h with h | ⟨hp, c, hc, hty⟩
    · exact Or.inl h
    · exact Or.inr ⟨hp, by simp [matchingViewType, hc, h4, elementOf, hty]⟩
  · exact Or.inl ((callback_invalid_ok_iff view).1 h)

theorem matN_ok (N : Bool) (property : StdAny Value)
    (vt : FCesiumMetadataValueType) (view : TypedView Value)
    (h : matNPropertyTablePropertyCallback (m := Id) N property vt (fun v => v) = .ok view) :
    view = invalidView ∨
      (property = some view ∧
        matchingViewType ⟨vt.Type_, vt.ComponentType, false⟩ N = some view.type) := by
  unfold matNPropertyTablePropertyCallback at h
  split_ifs at h with h2 h3 h4
  · rcases matNN_ok _ _ _ _ _ h with h | ⟨hp, c, hc, hty⟩
    · exact Or.inl h
    · exact Or.inr ⟨hp, by simp [matchingViewType, hc, h2, elementOf, hty]⟩
  · rcases matNN_ok _ _ _ _ _ h with h | ⟨hp, c, hc, hty⟩
    · exact Or.inl h
    · exact Or.inr ⟨hp, by simp [matchingViewType, hc, h3, elementOf, hty]⟩
  · rcases matNN_ok _ _ _ _ _ h with h | ⟨hp, c, hc, hty⟩
    · exact Or.inl h
    · exact Or.inr ⟨hp, by simp [matchingViewType, hc, h4, elementOf, hty]⟩
  · exact Or.inl ((callback_invalid_ok_iff view).1 h)

theorem matNArray_ok (N : Bool) (property : StdAny Value)
    (vt : FCesiumMetadataValueType) (view : TypedView Value)
    (h : matNArrayPropertyTablePropertyCallback (m := Id) N property vt (fun v => v) = .ok view) :
    view = invalidView ∨
      (property = some view ∧
        matchingViewType ⟨vt.Type_, vt.ComponentType, true⟩ N = some view.type) := by
  unfold matNArrayPropertyTablePropertyCallback at h
  split_ifs at h with h2 h3 h4
  · rcases matNArrayN_ok _ _ _ _ _ h with h | ⟨hp, c, hc, hty⟩
    · exact Or.inl h
    · exact Or.inr ⟨hp, by simp [matchingViewType, hc, h2, elementOf, hty]⟩
  · rcases matNArrayN_ok _ _ _ _ _ h with h | ⟨hp, c, hc, hty⟩
    · exact Or.inl h
    · exact Or.inr ⟨hp, by simp [matchingViewType, hc, h3, elementOf, hty]⟩
  · rcases matNArrayN_ok _ _ _ _ _ h with h | ⟨hp, c, hc, hty⟩
    · exact Or.inl h
    · exact Or.inr ⟨hp, by simp [matchingViewType, hc, h4, elementOf, hty]⟩
  · exact Or.inl ((callback_invalid_ok_iff view).1 h)

theorem stringCase_ok (property : StdAny Value) (view : TypedView Value)
    (h : stringCase (m := Id) property (fun v => v) = .ok view) :
    view = invalidView ∨ (property = some view ∧ view.type = ⟨.string_view, false, false⟩) := by
  unfold stringCase at h
  split_ifs at h
  · exact Or.inr ((callback_any_cast_ok_iff _ _ _).1 h)
  · exact Or.inl ((callback_invalid_ok_iff view).1 h)

theorem arrayStringCase_ok (property : StdAny Value) (view : TypedView Value)
    (h : arrayStringCase (m := Id) property (fun v => v) = .ok view) :
    view = invalidView ∨ (property = some view ∧ view.type = ⟨.string_view, true, false⟩) := by
  unfold arrayStringCase at h
  split_ifs at h
  · exact Or.inr ((callback_any_cast_ok_iff _ _ _).1 h)
  · exact Or.inl ((callback_invalid_ok_iff view).1 h)

theorem array_ok (N : Bool) (property : StdAny Value) (vt : FCesiumMetadataValueType)
    (view : TypedView Value) (ha : vt.bIsArray = true)
    (h : arrayPropertyTablePropertyCallback (m := Id) N property vt (fun v => v) = .ok view) :
    SelectedFor property vt N view := by
  obtain ⟨t, c, a⟩ := vt
  simp only at ha
  subst ha
  unfold arrayPropertyTablePropertyCallback at h
  unfold SelectedFor
  cases t <;> simp only [] at h
  case Scalar =>
    rcases scalarArray_ok _ _ _ _ h with h | ⟨hp, c', hc, hty⟩
    · exact Or.inl h
    · simp only at hc
      exact Or.inr ⟨hp, Or.inl (by simp [matchingViewType, hc, elementOf, hty])⟩
  case Boolean =>
    split_ifs at h
    · exact Or.inr ⟨((callback_any_cast_ok_iff _ _ _).1 h).1,
        Or.inr (Or.inl ⟨rfl, ((callback_any_cast_ok_iff _ _ _).1 h).2⟩)⟩
    · rcases arrayStringCase_ok _ _ h with h | ⟨hp, hty⟩
      · exact Or.inl h
      · exact Or.inr ⟨hp, Or.inr (Or.inr ⟨Or.inl rfl, hty⟩)⟩
  case String =>
    rcases arrayStringCase_ok _ _ h with h | ⟨hp, hty⟩
    · exact Or.inl h
    · exact Or.inr ⟨hp, Or.inr (Or.inr ⟨Or.inr rfl, hty⟩)⟩
  case Invalid => exact Or.inl ((callback_invalid_ok_iff view).1 h)
  case Enum => exact Or.inl ((callback_invalid_ok_iff view).1 h)
  all_goals
    first
    | (rcases vecNArray_ok _ _ _ _ h with h | ⟨hp, hty⟩
       · exact Or.inl h
       · exact Or.inr ⟨hp, Or.inl hty⟩)
    | (rcases matNArray_ok _ _ _ _ h with h | ⟨hp, hty⟩
       · exact Or.inl h
       · exact Or.inr ⟨hp, Or.inl hty⟩)

theorem dispatch_ok_cases (property : StdAny Value) (vt : FCesiumMetadataValueType)
    (normalized : Bool) (view : TypedView Value)
    (h : propertyTablePropertyCallback (m := Id) property vt normalized (fun v => v)
      = .ok view) :
    SelectedFor property vt normalized view := by
  obtain ⟨t, c, a⟩ := vt
  cases a
  swap
  · simp only [propertyTablePropertyCallback, if_true] at h
    cases normalized <;> exact array_ok _ _ _ _ rfl h
  · simp only [propertyTablePropertyCallback, Bool.false_eq_true, if_false] at h
    unfold SelectedFor
    cases normalized <;> cases t <;> simp only [] at h <;>
      (try simp only [if_true, Bool.false_eq_true, if_false] at h) <;>
      first
      | (rcases scalar_ok _ _ _ _ h with h | ⟨hp, c', hc, hty⟩
         · exact Or.inl h
         · simp only at hc
           exact Or.inr ⟨hp, Or.inl (by simp [matchingViewType, hc, elementOf, hty])⟩)
      | (rcases vecN_ok _ _ _ _ h with h | ⟨hp, hty⟩
         · exact Or.inl h
         · exact Or.inr ⟨hp, Or.inl hty⟩)
      | (rcases matN_ok _ _ _ _ h with h | ⟨hp, hty⟩
         · exact Or.inl h
         · exact Or.inr ⟨hp, Or.inl hty⟩)
      | exact Or.inl ((callback_invalid_ok_iff view).1 h)
      | (rcases stringCase_ok _ _ h with h | ⟨hp, hty⟩
         · exact Or.inl h
         · exact Or.inr ⟨hp, Or.inr (Or.inr ⟨Or.inr rfl, hty⟩)⟩)
      | (split_ifs at h
         · exact Or.inr ⟨((callback_any_cast_ok_iff _ _ _).1 h).1,
             Or.inr (Or.inl ⟨rfl, ((callback_any_cast_ok_iff _ _ _).1 h).2⟩)⟩
         · rcases stringCase_ok _ _ h with h | ⟨hp, hty⟩
           · exact Or.inl h
           · exact Or.inr ⟨hp, Or.inr (Or.inr ⟨Or.inl rfl, hty⟩)⟩)

end DispatchCases

section DispatchConverse

variable {Value R : Type} [Inhabited Value] {m : Type → Type} [Monad m]

/-- On a stored view of the instantiation matching a numeric descriptor, the
dispatcher is one invocation of the callback on the stored view. -/
theorem dispatch_matching (stored : TypedView Value) (vt : FCesiumMetadataValueType)
    (normalized : Bool) (hmatch : matchingViewType vt normalized = some stored.type)
    (callback : TypedView Value → m R) :
    propertyTablePropertyCallback (some stored) vt normalized callback
      = Except.ok <$> callback stored := by
  obtain ⟨ty, view⟩ := stored
  obtain ⟨t, c, a⟩ := vt
  cases a <;> cases normalized <;> cases t <;> cases c <;>
    simp [matchingViewType, componentOf, elementOf, ComponentT.isInteger] at hmatch <;>
    (subst hmatch; rfl)

/-- On a stored boolean view under a `Boolean` descriptor, the dispatcher is one
invocation of the callback on the stored view. -/
theorem dispatch_boolean (stored : TypedView Value) (vt : FCesiumMetadataValueType)
    (normalized : Bool) (ht : vt.Type_ = .Boolean)
    (hty : stored.type = ⟨.bool, vt.bIsArray, false⟩) (callback : TypedView Value → m R) :
    propertyTablePropertyCallback (some stored) vt normalized callback
      = Except.ok <$> callback stored := by
  obtain ⟨ty, view⟩ := stored
  obtain ⟨t, c, a⟩ := vt
  simp only at ht hty
  subst ht hty
  cases a <;> cases normalized <;> rfl

/-- On a stored string view under a `Boolean` or `String` descriptor, the dispatcher
is one invocation of the callback on the stored view. -/
theorem dispatch_string (stored : TypedView Value) (vt : FCesiumMetadataValueType)
    (normalized : Bool) (ht : vt.Type_ = .Boolean ∨ vt.Type_ = .String)
    (hty : stored.type = ⟨.string_view, vt.bIsArray, false⟩)
    (callback : TypedView Value → m R) :
    propertyTablePropertyCallback (some stored) vt normalized callback
      = Except.ok <$> callback stored := by
  obtain ⟨ty, view⟩ := stored
  obtain ⟨t, c, a⟩ := vt
  simp only at ht hty
  subst hty
  rcases ht with ht | ht <;> subst ht <;> cases a <;> cases normalized <;> rfl

/-- The view handed to the callback is the invalid view or a view whose array-ness
is that of the descriptor. -/
theorem selected_array (property : StdAny Value) (vt : FCesiumMetadataValueType)
    (normalized : Bool) (view : TypedView Value)
    (h : SelectedFor property vt normalized view) :
    view = invalidView ∨ view.type.array = vt.bIsArray := by
  rcases h with h | ⟨-, h | ⟨-, h⟩ | ⟨-, h⟩⟩
  · exact Or.inl h
  · right
    unfold matchingViewType at h
    cases hc : componentOf vt.ComponentType with
    | none => simp [hc] at h
    | some c =>
      cases he : elementOf c vt.Type_ with
      | none => simp [hc, he] at h
      | some e =>
        simp only [hc, he, Option.some.injEq] at h
        rw [← h]
  · exact Or.inr (by rw [h])
  · exact Or.inr (by rw [h])

/-- Replacing `getRaw` of the stored view does not change which view is selected: a
dispatched view other than the invalid one is the stored one, and the modified stored
view is dispatched in its place. -/
theorem dispatchedView_withGetRaw (Property : FCesiumPropertyTableProperty Value)
    (view : TypedView Value) (g : Int → Value) (hview : dispatchedView Property = .ok view)
    (hvalid : view ≠ invalidView) :
    dispatchedView (Property.withGetRaw g)
      = .ok { view with view := { view.view with getRaw := g } } := by
  rcases dispatch_ok_cases _ _ _ _ hview with h | ⟨hp, h⟩
  · exact absurd h hvalid
  · unfold dispatchedView FCesiumPropertyTableProperty.withGetRaw
    simp only [hp, Option.map_some']
    rcases h with h | ⟨ht, h⟩ | ⟨ht, h⟩
    · exact dispatch_matching (m := Id)
        { view with view := { view.view with getRaw := g } } _ _ h (fun v => v)
    · exact dispatch_boolean (m := Id)
        { view with view := { view.view with getRaw := g } } _ _ ht h (fun v => v)
    · exact dispatch_string (m := Id)
        { view with view := { view.view with getRaw := g } } _ _ ht h (fun v => v)

end DispatchConverse

section Instantiations

variable {Value R : Type} [Inhabited Value] {m : Type → Type} [Monad m]

/-- The matching view type is defined for exactly the numeric descriptors. -/
theorem matchingViewType_isSome_iff (vt : FCesiumMetadataValueType) (normalized : Bool) :
    (matchingViewType vt normalized).isSome = true
      ↔ isNumericType vt.Type_ = true ∧ isNumericComponentType vt.ComponentType = true := by
  obtain ⟨t, c, a⟩ := vt
  cases t <;> cases c <;>
    simp [matchingViewType, componentOf, elementOf, isNumericType, isNumericComponentType]

/-- A descriptor names a view instantiation exactly when its value type is valid. -/
theorem namedViewType_isSome_iff (vt : FCesiumMetadataValueType) (normalized : Bool) :
    (namedViewType vt normalized).isSome = true ↔ ¬ InvalidValueType vt := by
  obtain ⟨t, c, a⟩ := vt
  cases t <;> cases c <;>
    simp [namedViewType, matchingViewType, componentOf, elementOf, isNumericType,
      isNumericComponentType, isValidType, InvalidValueType]

/-- On a stored view of the instantiation a descriptor names, the dispatcher is one
invocation of the callback on the stored view. -/
theorem dispatch_named (stored : TypedView Value) (vt : FCesiumMetadataValueType)
    (normalized : Bool) (hnamed : namedViewType vt normalized = some stored.type)
    (callback : TypedView Value → m R) :
    propertyTablePropertyCallback (some stored) vt normalized callback
      = Except.ok <$> callback stored := by
  unfold namedViewType at hnamed
  cases ht : vt.Type_ <;> simp only [ht] at hnamed <;>
    first
    | exact dispatch_boolean _ _ _ ht (Option.some.inj hnamed).symm _
    | exact dispatch_string _ _ _ (Or.inr ht) (Option.some.inj hnamed).symm _
    | exact dispatch_matching _ _ _ hnamed _

/-- What a descriptor fixes of the instantiation it names. -/
theorem namedViewType_inv (vt : FCesiumMetadataValueType) (normalized : Bool)
    (T : ViewType) (h : namedViewType vt normalized = some T) :
    vt.Type_ = typeOfElement T.element ∧ vt.bIsArray = T.array ∧
      (isNumericType vt.Type_ = true →
        vt.ComponentType = componentTypeOfElement T.element ∧
          (normalized = T.Normalized ∨ vt.ComponentType = .Float32 ∨
            vt.ComponentType = .Float64)) := by
  obtain ⟨t, c, a⟩ := vt
  cases a <;> cases normalized <;> cases t <;> cases c <;>
    simp [namedViewType, matchingViewType, componentOf, elementOf,
      ComponentT.isInteger] at h <;>
    (subst h; simp [typeOfElement, componentTypeOfElement, componentTypeOf, isNumericType])

set_option maxRecDepth 100000 in
theorem viewInstantiations_length : viewInstantiations.length = 256 := by decide

set_option maxRecDepth 100000 in
theorem viewInstantiations_nodup : viewInstantiations.Nodup := by decide

set_option maxRecDepth 100000 in
theorem namedViewType_descriptorOf :
    ∀ T ∈ viewInstantiations, namedViewType (descriptorOf T) T.Normalized = some T := by
  decide

set_option maxRecDepth 100000 in
theorem matchingViewType_mem (vt : FCesiumMetadataValueType) (normalized : Bool)
    (T : ViewType) (h : matchingViewType vt normalized = some T) :
    T ∈ viewInstantiations := by
  obtain ⟨t, c, a⟩ := vt
  cases a <;> cases normalized <;> cases t <;> cases c <;>
    simp [matchingViewType, componentOf, elementOf, ComponentT.isInteger] at h <;>
    (subst h; decide)

/-- The instantiation of a view the dispatcher hands to a callback is one of the
counted view instantiations. -/
theorem selected_mem (property : StdAny Value) (vt : FCesiumMetadataValueType)
    (normalized : Bool) (view : TypedView Value)
    (h : SelectedFor property vt normalized view) : view.type ∈ viewInstantiations := by
  rcases h with h | ⟨-, h | ⟨-, h⟩ | ⟨-, h⟩⟩
  · subst h
    show (⟨.scalar .uint8, false, false⟩ : ViewType) ∈ viewInstantiations
    decide
  · exact matchingViewType_mem _ _ _ h
  · rw [h]
    cases vt.bIsArray <;> decide
  · rw [h]
    cases vt.bIsArray <;> decide

end Instantiations

/-- Out of the range of the dispatched view, each typed getter returns its default. -/
theorem getters_default_helper {Value float double FIntPoint FVector2D FIntVector FVector3f FVector FVector4 FMatrix : Type}
    [Inhabited Value] (Property : FCesiumPropertyTableProperty Value) (FeatureID : Int)
    (view : TypedView Value) (hview : dispatchedView Property = .ok view)
    (hrange : FeatureID < 0 ∨ FeatureID ≥ view.view.size) :
    (∀ (convert : ViewType → Value → Bool → Bool) (DefaultValue : Bool),
      GetBoolean convert Property FeatureID DefaultValue = .ok DefaultValue) ∧
    (∀ (convert : ViewType → Value → Nat → Nat) (DefaultValue : Nat),
      GetByte convert Property FeatureID DefaultValue = .ok DefaultValue) ∧
    (∀ (convert : ViewType → Value → Int → Int) (DefaultValue : Int),
      GetInteger convert Property FeatureID DefaultValue = .ok DefaultValue) ∧
    (∀ (convert : ViewType → Value → Int → Int) (DefaultValue : Int),
      GetInteger64 convert Property FeatureID DefaultValue = .ok DefaultValue) ∧
    (∀ (convert : ViewType → Value → float → float) (DefaultValue : float),
      GetFloat convert Property FeatureID DefaultValue = .ok DefaultValue) ∧
    (∀ (convert : ViewType → Value → double → double) (DefaultValue : double),
      GetFloat64 convert Property FeatureID DefaultValue = .ok DefaultValue) ∧
    (∀ (convert : ViewType → Value → FIntPoint → FIntPoint) (DefaultValue : FIntPoint),
      GetIntPoint convert Property FeatureID DefaultValue = .ok DefaultValue) ∧
    (∀ (convert : ViewType → Value → FVector2D → FVector2D) (DefaultValue : FVector2D),
      GetVector2D convert Property FeatureID DefaultValue = .ok DefaultValue) ∧
    (∀ (convert : ViewType → Value → FIntVector → FIntVector) (DefaultValue : FIntVector),
      GetIntVector convert Property FeatureID DefaultValue = .ok DefaultValue) ∧
    (∀ (convert : ViewType → Value → FVector3f → FVector3f) (DefaultValue : FVector3f),
      GetVector3f convert Property FeatureID DefaultValue = .ok DefaultValue) ∧
    (∀ (convert : ViewType → Value → FVector → FVector) (DefaultValue : FVector),
      GetVector convert Property FeatureID DefaultValue = .ok DefaultValue) ∧
    (∀ (convert : ViewType → Value → FVector4 → FVector4) (DefaultValue : FVector4),
      GetVector4 convert Property FeatureID DefaultValue = .ok DefaultValue) ∧
    (∀ (convert : ViewType → Value → FMatrix → FMatrix) (DefaultValue : FMatrix),
      GetMatrix convert Property FeatureID DefaultValue = .ok DefaultValue) ∧
    (∀ (convert : ViewType → Value → String → String) (DefaultValue : String),
      GetString convert Property FeatureID DefaultValue = .ok DefaultValue) := by
  simp only [GetBoolean, GetByte, GetInteger, GetInteger64, GetFloat, GetFloat64, GetIntPoint, GetVector2D, GetIntVector, GetVector3f, GetVector, GetVector4, GetMatrix, GetString, callback_on_dispatchedView, hview, hrange, if_true]
  simp

/-! ## Claims -/

/-- C1: each typed getter returns exactly `DefaultValue` whenever `FeatureID < 0` or
`FeatureID >= size` of the view the property is dispatched to. -/
theorem getters_default_when_out_of_range {Value float double FIntPoint FVector2D FIntVector FVector3f FVector FVector4 FMatrix : Type}
    [Inhabited Value] (Property : FCesiumPropertyTableProperty Value) (FeatureID : Int)
    (view : TypedView Value) (hview : dispatchedView Property = .ok view)
    (hrange : FeatureID < 0 ∨ FeatureID ≥ view.view.size) :
    (∀ (convert : ViewType → Value → Bool → Bool) (DefaultValue : Bool),
      GetBoolean convert Property FeatureID DefaultValue = .ok DefaultValue) ∧
    (∀ (convert : ViewType → Value → Nat → Nat) (DefaultValue : Nat),
      GetByte convert Property FeatureID DefaultValue = .ok DefaultValue) ∧
    (∀ (convert : ViewType → Value → Int → Int) (DefaultValue : Int),
      GetInteger convert Property FeatureID DefaultValue = .ok DefaultValue) ∧
    (∀ (convert : ViewType → Value → Int → Int) (DefaultValue : Int),
      GetInteger64 convert Property FeatureID DefaultValue = .ok DefaultValue) ∧
    (∀ (convert : ViewType → Value → float → float) (DefaultValue : float),
      GetFloat convert Property FeatureID DefaultValue = .ok DefaultValue) ∧
    (∀ (convert : ViewType → Value → double → double) (DefaultValue : double),
      GetFloat64 convert Property FeatureID DefaultValue = .ok DefaultValue) ∧
    (∀ (convert : ViewType → Value → FIntPoint → FIntPoint) (DefaultValue : FIntPoint),
      GetIntPoint convert Property FeatureID DefaultValue = .ok DefaultValue) ∧
    (∀ (convert : ViewType → Value → FVector2D → FVector2D) (DefaultValue : FVector2D),
      GetVector2D convert Property FeatureID DefaultValue = .ok DefaultValue) ∧
    (∀ (convert : ViewType → Value → FIntVector → FIntVector) (DefaultValue : FIntVector),
      GetIntVector convert Property FeatureID DefaultValue = .ok DefaultValue) ∧
    (∀ (convert : ViewType → Value → FVector3f → FVector3f) (DefaultValue : FVector3f),
      GetVector3f convert Property FeatureID DefaultValue = .ok DefaultValue) ∧
    (∀ (convert : ViewType → Value → FVector → FVector) (DefaultValue : FVector),
      GetVector convert Property FeatureID DefaultValue = .ok DefaultValue) ∧
    (∀ (convert : ViewType → Value → FVector4 → FVector4) (DefaultValue : FVector4),
      GetVector4 convert Property FeatureID DefaultValue = .ok DefaultValue) ∧
    (∀ (convert : ViewType → Value → FMatrix → FMatrix) (DefaultValue : FMatrix),
      GetMatrix convert Property FeatureID DefaultValue = .ok DefaultValue) ∧
    (∀ (convert : ViewType → Value → String → String) (DefaultValue : String),
      GetString convert Property FeatureID DefaultValue = .ok DefaultValue) :=
  getters_default_helper Property FeatureID view hview hrange

/-- C1, at a sample property: feature 5 of a view of size 2 yields the default. -/
theorem getters_default_when_out_of_range_witness :
    dispatchedView sampleProperty = .ok ⟨⟨.scalar .int32, false, false⟩, sampleView⟩ ∧
      ((5 : Int) < 0 ∨ (5 : Int) ≥ sampleView.size) ∧
      GetInteger (fun _ value _ => value) sampleProperty 5 (-1) = .ok (-1) :=
  ⟨rfl, by decide,
    (@getters_default_when_out_of_range Int Unit Unit Unit Unit Unit Unit Unit Unit Unit _
      sampleProperty 5 ⟨⟨.scalar .int32, false, false⟩, sampleView⟩ rfl
      (by decide)).2.2.1 _ _⟩

/-- C2: when the value type has no valid type or component type, the callback is
performed on the invalid view whatever is stored: `GetPropertySize` returns 0 and every
typed getter returns its `DefaultValue` for every `FeatureID`. -/
theorem invalid_value_type_yields_invalid_view {Value float double FIntPoint FVector2D FIntVector FVector3f FVector FVector4 FMatrix : Type}
    [Inhabited Value] (Property : FCesiumPropertyTableProperty Value)
    (hinvalid : InvalidValueType Property._valueType) (FeatureID : Int) :
    (∀ (m : Type → Type) [Monad m] (R : Type) (callback : TypedView Value → m R),
      propertyTablePropertyCallback Property._property Property._valueType
          Property._normalized callback
        = Except.ok <$> callback invalidView) ∧
    dispatchedView Property = .ok invalidView ∧
    GetPropertySize Property = .ok 0 ∧
    (∀ (convert : ViewType → Value → Bool → Bool) (DefaultValue : Bool),
      GetBoolean convert Property FeatureID DefaultValue = .ok DefaultValue) ∧
    (∀ (convert : ViewType → Value → Nat → Nat) (DefaultValue : Nat),
      GetByte convert Property FeatureID DefaultValue = .ok DefaultValue) ∧
    (∀ (convert : ViewType → Value → Int → Int) (DefaultValue : Int),
      GetInteger convert Property FeatureID DefaultValue = .ok DefaultValue) ∧
    (∀ (convert : ViewType → Value → Int → Int) (DefaultValue : Int),
      GetInteger64 convert Property FeatureID DefaultValue = .ok DefaultValue) ∧
    (∀ (convert : ViewType → Value → float → float) (DefaultValue : float),
      GetFloat convert Property FeatureID DefaultValue = .ok DefaultValue) ∧
    (∀ (convert : ViewType → Value → double → double) (DefaultValue : double),
      GetFloat64 convert Property FeatureID DefaultValue = .ok DefaultValue) ∧
    (∀ (convert : ViewType → Value → FIntPoint → FIntPoint) (DefaultValue : FIntPoint),
      GetIntPoint convert Property FeatureID DefaultValue = .ok DefaultValue) ∧
    (∀ (convert : ViewType → Value → FVector2D → FVector2D) (DefaultValue : FVector2D),
      GetVector2D convert Property FeatureID DefaultValue = .ok DefaultValue) ∧
    (∀ (convert : ViewType → Value → FIntVector → FIntVector) (DefaultValue : FIntVector),
      GetIntVector convert Property FeatureID DefaultValue = .ok DefaultValue) ∧
    (∀ (convert : ViewType → Value → FVector3f → FVector3f) (DefaultValue : FVector3f),
      GetVector3f convert Property FeatureID DefaultValue = .ok DefaultValue) ∧
    (∀ (convert : ViewType → Value → FVector → FVector) (DefaultValue : FVector),
      GetVector convert Property FeatureID DefaultValue = .ok DefaultValue) ∧
    (∀ (convert : ViewType → Value → FVector4 → FVector4) (DefaultValue : FVector4),
      GetVector4 convert Property FeatureID DefaultValue = .ok DefaultValue) ∧
    (∀ (convert : ViewType → Value → FMatrix → FMatrix) (DefaultValue : FMatrix),
      GetMatrix convert Property FeatureID DefaultValue = .ok DefaultValue) ∧
    (∀ (convert : ViewType → Value → String → String) (DefaultValue : String),
      GetString convert Property FeatureID DefaultValue = .ok DefaultValue) := by
  have hd : dispatchedView Property = .ok invalidView :=
    invalid_descriptor_dispatch (m := Id) _ _ _ hinvalid _
  refine ⟨fun m _ R callback => invalid_descriptor_dispatch _ _ _ hinvalid callback, hd, ?_, ?_⟩
  · simp only [GetPropertySize, callback_on_dispatchedView, hd]
    rfl
  · exact getters_default_helper Property FeatureID invalidView hd
      (by show FeatureID < 0 ∨ FeatureID ≥ 0; omega)

/-- C2, at a sample property whose descriptor has type `Enum`: the size is 0 and
feature 0, which the stored view has, yields the default. -/
theorem invalid_value_type_yields_invalid_view_witness :
    InvalidValueType sampleInvalidProperty._valueType ∧
      GetPropertySize sampleInvalidProperty = .ok 0 ∧
      GetInteger (fun _ value _ => value) sampleInvalidProperty 0 (-1) = .ok (-1) :=
  ⟨Or.inl rfl,
    (@invalid_value_type_yields_invalid_view Int Unit Unit Unit Unit Unit Unit Unit Unit
      Unit _ sampleInvalidProperty (Or.inl rfl) 0).2.2.1,
    (@invalid_value_type_yields_invalid_view Int Unit Unit Unit Unit Unit Unit Unit Unit
      Unit _ sampleInvalidProperty (Or.inl rfl) 0).2.2.2.2.2.1 _ _⟩

/-- C3: for a numeric descriptor (one of the seven shapes, one of the ten component
types, any `bIsArray`, any normalized flag; `matchingViewType` is defined for exactly
these) and a stored view of the instantiation matching it, the dispatcher is exactly
one invocation of the callback on the stored view, and it returns the result of the
callback: in any monad it equals that one invocation, and a callback that logs its
invocations leaves a log holding the stored view once. -/
theorem dispatch_invokes_callback_once_on_matching_view {Value R : Type}
    [Inhabited Value] {m : Type → Type} [Monad m] (stored : TypedView Value)
    (valueType : FCesiumMetadataValueType) (normalized : Bool)
    (hmatch : matchingViewType valueType normalized = some stored.type)
    (callback : TypedView Value → m R) (f : TypedView Value → R) :
    propertyTablePropertyCallback (some stored) valueType normalized callback
        = Except.ok <$> callback stored ∧
      (propertyTablePropertyCallback (some stored) valueType normalized (logged f)).run []
        = (Except.ok (f stored), [stored]) := by
  refine ⟨dispatch_matching stored valueType normalized hmatch callback, ?_⟩
  rw [dispatch_matching stored valueType normalized hmatch]
  rfl

/-- C3, for a normalized array-of-`vec3` descriptor over `uint16` and the stored
normalized array view of `glm::vec<3, uint16>`: the log holds exactly the stored view
and the result is the size read by the callback. -/
theorem dispatch_invokes_callback_once_on_matching_view_witness :
    (propertyTablePropertyCallback
        (some ⟨⟨.vec 3 .uint16, true, true⟩, sampleView⟩) ⟨.Vec3, .Uint16, true⟩ true
        (logged (fun v => v.view.size))).run []
      = (Except.ok 2, [⟨⟨.vec 3 .uint16, true, true⟩, sampleView⟩]) :=
  (dispatch_invokes_callback_once_on_matching_view (m := Id)
    ⟨⟨.vec 3 .uint16, true, true⟩, sampleView⟩ ⟨.Vec3, .Uint16, true⟩ true rfl
    (fun v => v.view.size) (fun v => v.view.size)).2

/-- C4: for `0 <= FeatureID < size` of the dispatched view, each typed getter returns
the conversion of the value `get(FeatureID)` yields (the conversion selected by the
instantiation of the view, applied to the value and `DefaultValue`), and
`DefaultValue` when `get(FeatureID)` yields no value. -/
theorem getters_convert_when_in_range {Value float double FIntPoint FVector2D FIntVector FVector3f FVector FVector4 FMatrix : Type}
    [Inhabited Value] (Property : FCesiumPropertyTableProperty Value) (FeatureID : Int)
    (view : TypedView Value) (hview : dispatchedView Property = .ok view)
    (hrange : 0 ≤ FeatureID ∧ FeatureID < view.view.size) :
    (∀ (convert : ViewType → Value → Bool → Bool) (DefaultValue : Bool),
      GetBoolean convert Property FeatureID DefaultValue
        = .ok ((view.view.get FeatureID).elim DefaultValue
            (fun value => convert view.type value DefaultValue))) ∧
    (∀ (convert : ViewType → Value → Nat → Nat) (DefaultValue : Nat),
      GetByte convert Property FeatureID DefaultValue
        = .ok ((view.view.get FeatureID).elim DefaultValue
            (fun value => convert view.type value DefaultValue))) ∧
    (∀ (convert : ViewType → Value → Int → Int) (DefaultValue : Int),
      GetInteger convert Property FeatureID DefaultValue
        = .ok ((view.view.get FeatureID).elim DefaultValue
            (fun value => convert view.type value DefaultValue))) ∧
    (∀ (convert : ViewType → Value → Int → Int) (DefaultValue : Int),
      GetInteger64 convert Property FeatureID DefaultValue
        = .ok ((view.view.get FeatureID).elim DefaultValue
            (fun value => convert view.type value DefaultValue))) ∧
    (∀ (convert : ViewType → Value → float → float) (DefaultValue : float),
      GetFloat convert Property FeatureID DefaultValue
        = .ok ((view.view.get FeatureID).elim DefaultValue
            (fun value => convert view.type value DefaultValue))) ∧
    (∀ (convert : ViewType → Value → double → double) (DefaultValue : double),
      GetFloat64 convert Property FeatureID DefaultValue
        = .ok ((view.view.get FeatureID).elim DefaultValue
            (fun value => convert view.type value DefaultValue))) ∧
    (∀ (convert : ViewType → Value → FIntPoint → FIntPoint) (DefaultValue : FIntPoint),
      GetIntPoint convert Property FeatureID DefaultValue
        = .ok ((view.view.get FeatureID).elim DefaultValue
            (fun value => convert view.type value DefaultValue))) ∧
    (∀ (convert : ViewType → Value → FVector2D → FVector2D) (DefaultValue : FVector2D),
      GetVector2D convert Property FeatureID DefaultValue
        = .ok ((view.view.get FeatureID).elim DefaultValue
            (fun value => convert view.type value DefaultValue))) ∧
    (∀ (convert : ViewType → Value → FIntVector → FIntVector) (DefaultValue : FIntVector),
      GetIntVector convert Property FeatureID DefaultValue
        = .ok ((view.view.get FeatureID).elim DefaultValue
            (fun value => convert view.type value DefaultValue))) ∧
    (∀ (convert : ViewType → Value → FVector3f → FVector3f) (DefaultValue : FVector3f),
      GetVector3f convert Property FeatureID DefaultValue
        = .ok ((view.view.get FeatureID).elim DefaultValue
            (fun value => convert view.type value DefaultValue))) ∧
    (∀ (convert : ViewType → Value → FVector → FVector) (DefaultValue : FVector),
      GetVector convert Property FeatureID DefaultValue
        = .ok ((view.view.get FeatureID).elim DefaultValue
            (fun value => convert view.type value DefaultValue))) ∧
    (∀ (convert : ViewType → Value → FVector4 → FVector4) (DefaultValue : FVector4),
      GetVector4 convert Property FeatureID DefaultValue
        = .ok ((view.view.get FeatureID).elim DefaultValue
            (fun value => convert view.type value DefaultValue))) ∧
    (∀ (convert : ViewType → Value → FMatrix → FMatrix) (DefaultValue : FMatrix),
      GetMatrix convert Property FeatureID DefaultValue
        = .ok ((view.view.get FeatureID).elim DefaultValue
            (fun value => convert view.type value DefaultValue))) ∧
    (∀ (convert : ViewType → Value → String → String) (DefaultValue : String),
      GetString convert Property FeatureID DefaultValue
        = .ok ((view.view.get FeatureID).elim DefaultValue
            (fun value => convert view.type value DefaultValue))) := by
  have hnot : ¬ (FeatureID < 0 ∨ FeatureID ≥ view.view.size) := by omega
  simp only [GetBoolean, GetByte, GetInteger, GetInteger64, GetFloat, GetFloat64, GetIntPoint, GetVector2D, GetIntVector, GetVector3f, GetVector, GetVector4, GetMatrix, GetString, callback_on_dispatchedView, hview, hnot, if_false]
  cases view.view.get FeatureID <;> simp

/-- C4, at the sample property: feature 0 has the value 7 and is converted (here by
adding the default), feature 1 has no value and yields the default. -/
theorem getters_convert_when_in_range_witness :
    (dispatchedView sampleProperty = .ok ⟨⟨.scalar .int32, false, false⟩, sampleView⟩ ∧
      (0 : Int) ≤ 0 ∧ (0 : Int) < sampleView.size) ∧
      GetInteger64 (fun _ value d => value + d) sampleProperty 0 10 = .ok 17 :=
  ⟨⟨rfl, by decide, by decide⟩,
    (@getters_convert_when_in_range Int Unit Unit Unit Unit Unit Unit Unit Unit Unit _
      sampleProperty 0 ⟨⟨.scalar .int32, false, false⟩, sampleView⟩ rfl
      ⟨by decide, by decide⟩).2.2.2.1 (fun _ value d => value + d) 10⟩

/-- C5, as the code has it: a descriptor names a view instantiation exactly when
its value type is valid, and dispatched on a stored view of the instantiation it names
it selects that view; two valid descriptors, each so dispatched, select the same view
instantiation only if they have the same type and `bIsArray` and, for a numeric
type, the same component type and either the same normalized flag or a `Float32` or
`Float64` component type (for `Boolean` and `String` the component type and the
normalized flag are ignored); and the view instantiations the dispatcher can select,
on any stored value, are the 256 counted ones: 7 shapes x 2 array modes x (8 integer
components x 2 normalization modes + 2 float components) + 4 boolean and string
views. -/
theorem descriptors_select_distinct_view_instantiations {Value : Type}
    [Inhabited Value] :
    (∀ (vt : FCesiumMetadataValueType) (normalized : Bool),
      (namedViewType vt normalized).isSome = true ↔ ¬ InvalidValueType vt) ∧
    (∀ (vt₁ vt₂ : FCesiumMetadataValueType) (normalized₁ normalized₂ : Bool)
      (stored₁ stored₂ : TypedView Value),
      namedViewType vt₁ normalized₁ = some stored₁.type →
      namedViewType vt₂ normalized₂ = some stored₂.type →
      propertyTablePropertyCallback (m := Id) (some stored₁) vt₁ normalized₁ (fun v => v)
          = .ok stored₁ ∧
        propertyTablePropertyCallback (m := Id) (some stored₂) vt₂ normalized₂ (fun v => v)
          = .ok stored₂ ∧
        (stored₁.type = stored₂.type →
          vt₁.Type_ = vt₂.Type_ ∧ vt₁.bIsArray = vt₂.bIsArray ∧
            (isNumericType vt₁.Type_ = true →
              vt₁.ComponentType = vt₂.ComponentType ∧
                (normalized₁ = normalized₂ ∨ vt₁.ComponentType = .Float32 ∨
                  vt₁.ComponentType = .Float64)))) ∧
    (∀ T : ViewType, T ∈ viewInstantiations ↔
      ∃ (property : StdAny Value) (vt : FCesiumMetadataValueType) (normalized : Bool)
        (view : TypedView Value),
        propertyTablePropertyCallback (m := Id) property vt normalized (fun v => v)
            = .ok view ∧ view.type = T) ∧
    viewInstantiations.Nodup ∧ viewInstantiations.length = 256 := by
  refine ⟨namedViewType_isSome_iff, ?_, ?_, viewInstantiations_nodup,
    viewInstantiations_length⟩
  · intro vt₁ vt₂ n₁ n₂ s₁ s₂ h₁ h₂
    refine ⟨dispatch_named (m := Id) s₁ vt₁ n₁ h₁ _, dispatch_named (m := Id) s₂ vt₂ n₂ h₂ _,
      fun heq => ?_⟩
    obtain ⟨ht₁, ha₁, hc₁⟩ := namedViewType_inv _ _ _ h₁
    obtain ⟨ht₂, ha₂, hc₂⟩ := namedViewType_inv _ _ _ h₂
    rw [← heq] at ht₂ ha₂ hc₂
    refine ⟨ht₁.trans ht₂.symm, ha₁.trans ha₂.symm, fun hnum => ?_⟩
    obtain ⟨hcomp₁, hn₁⟩ := hc₁ hnum
    obtain ⟨hcomp₂, hn₂⟩ := hc₂ (by rw [ht₂, ← ht₁]; exact hnum)
    refine ⟨hcomp₁.trans hcomp₂.symm, ?_⟩
    rcases hn₁ with hn₁ | hn₁ | hn₁
    · rcases hn₂ with hn₂ | hn₂ | hn₂
      · exact Or.inl (hn₁.trans hn₂.symm)
      · exact Or.inr (Or.inl (hcomp₁.trans (hcomp₂.symm.trans hn₂)))
      · exact Or.inr (Or.inr (hcomp₁.trans (hcomp₂.symm.trans hn₂)))
    · exact Or.inr (Or.inl hn₁)
    · exact Or.inr (Or.inr hn₁)
  · intro T
    constructor
    · intro hT
      exact ⟨some ⟨T, invalidView.view⟩, descriptorOf T, T.Normalized, ⟨T, invalidView.view⟩,
        dispatch_named (m := Id) ⟨T, invalidView.view⟩ _ _
          (namedViewType_descriptorOf T hT) _, rfl⟩
    · rintro ⟨property, vt, n, view, hd, rfl⟩
      exact selected_mem _ _ _ _ (dispatch_ok_cases _ _ _ _ hd)

/-- C5, on sample views: a normalized and a non-normalized `Float32` scalar
descriptor select the same instantiation, and the count is 256. -/
theorem descriptors_select_distinct_view_instantiations_witness :
    propertyTablePropertyCallback (m := Id)
        (some ⟨⟨.scalar .float, false, false⟩, sampleView⟩) ⟨.Scalar, .Float32, false⟩ true
        (fun v => v) = .ok ⟨⟨.scalar .float, false, false⟩, sampleView⟩ ∧
      propertyTablePropertyCallback (m := Id)
        (some ⟨⟨.scalar .float, false, false⟩, sampleView⟩) ⟨.Scalar, .Float32, false⟩ false
        (fun v => v) = .ok ⟨⟨.scalar .float, false, false⟩, sampleView⟩ ∧
      viewInstantiations.length = 256 :=
  ⟨((@descriptors_select_distinct_view_instantiations Int _).2.1
      ⟨.Scalar, .Float32, false⟩ ⟨.Scalar, .Float32, false⟩ true false
      ⟨⟨.scalar .float, false, false⟩, sampleView⟩
      ⟨⟨.scalar .float, false, false⟩, sampleView⟩ rfl rfl).1,
    ((@descriptors_select_distinct_view_instantiations Int _).2.1
      ⟨.Scalar, .Float32, false⟩ ⟨.Scalar, .Float32, false⟩ true false
      ⟨⟨.scalar .float, false, false⟩, sampleView⟩
      ⟨⟨.scalar .float, false, false⟩, sampleView⟩ rfl rfl).2.1,
    (@descriptors_select_distinct_view_instantiations Int _).2.2.2.2⟩

/-- C5 as stated fails: the valid descriptors `(Boolean, None, non-array)` and
`(String, None, non-array)`, which differ in their type, both select the string view
when a string view is stored (the `Boolean` case falls through to the `String` case);
and the valid descriptors `(Boolean, None, non-array)` and `(Boolean, Int8,
non-array)`, which differ in their component type, both select the stored boolean
view. -/
theorem boolean_and_string_descriptors_select_same_view :
    (¬ InvalidValueType ⟨.Boolean, .None, false⟩ ∧ ¬ InvalidValueType ⟨.String, .None, false⟩ ∧
      ¬ InvalidValueType ⟨.Boolean, .Int8, false⟩) ∧
    (propertyTablePropertyCallback (m := Id) (some sampleStringView)
          ⟨.Boolean, .None, false⟩ false (fun v => v) = .ok sampleStringView ∧
      propertyTablePropertyCallback (m := Id) (some sampleStringView)
          ⟨.String, .None, false⟩ false (fun v => v) = .ok sampleStringView ∧
      (⟨.Boolean, .None, false⟩ : FCesiumMetadataValueType).Type_
        ≠ (⟨.String, .None, false⟩ : FCesiumMetadataValueType).Type_) ∧
    (propertyTablePropertyCallback (m := Id) (some sampleBooleanView)
          ⟨.Boolean, .None, false⟩ false (fun v => v) = .ok sampleBooleanView ∧
      propertyTablePropertyCallback (m := Id) (some sampleBooleanView)
          ⟨.Boolean, .Int8, false⟩ false (fun v => v) = .ok sampleBooleanView ∧
      (⟨.Boolean, .None, false⟩ : FCesiumMetadataValueType).ComponentType
        ≠ (⟨.Boolean, .Int8, false⟩ : FCesiumMetadataValueType).ComponentType) := by
  refine ⟨⟨?_, ?_, ?_⟩, ⟨rfl, rfl, by decide⟩, ⟨rfl, rfl, by decide⟩⟩ <;>
    simp [InvalidValueType, isValidType, isNumericType]

/-- C6: `GetValue` returns the empty metadata value for every `FeatureID` outside
`[0, size)` of the dispatched view (for every `FeatureID` when that view is the
invalid one, whose size is zero), and for every `FeatureID` in range the metadata value
built from `get(FeatureID)`. -/
theorem GetValue_empty_or_built_from_get {Value : Type} [Inhabited Value]
    (Property : FCesiumPropertyTableProperty Value) (FeatureID : Int)
    (view : TypedView Value) (hview : dispatchedView Property = .ok view) :
    ((FeatureID < 0 ∨ FeatureID ≥ view.view.size) →
        GetValue Property FeatureID = .ok .empty) ∧
      (view = invalidView → GetValue Property FeatureID = .ok .empty) ∧
      ((0 ≤ FeatureID ∧ FeatureID < view.view.size) →
        GetValue Property FeatureID
          = .ok (FCesiumMetadataValue.ofOptional view.type (view.view.get FeatureID))) := by
  have hout : (FeatureID < 0 ∨ FeatureID ≥ view.view.size) →
      GetValue Property FeatureID = .ok .empty := by
    intro h
    have hnot : ¬ (FeatureID ≥ 0 ∧ FeatureID < view.view.size) := by omega
    simp only [GetValue, callback_on_dispatchedView, hview, hnot, if_false]
  refine ⟨hout, ?_, ?_⟩
  · intro hinv
    apply hout
    subst hinv
    show FeatureID < 0 ∨ FeatureID ≥ 0
    omega
  · intro h
    have h' : FeatureID ≥ 0 ∧ FeatureID < view.view.size := ⟨h.1, h.2⟩
    simp only [GetValue, callback_on_dispatchedView, hview, h', and_self, if_true]

/-- C6, at the sample property: feature 0 holds 7, feature 1 has no value (the value
built from an empty optional), feature 2 is out of range. -/
theorem GetValue_empty_or_built_from_get_witness :
    dispatchedView sampleProperty = .ok ⟨⟨.scalar .int32, false, false⟩, sampleView⟩ ∧
      GetValue sampleProperty 0 = .ok (.holds ⟨.scalar .int32, false, false⟩ 7) ∧
      GetValue sampleProperty 2 = .ok .empty :=
  ⟨rfl,
    (GetValue_empty_or_built_from_get sampleProperty 0
      ⟨⟨.scalar .int32, false, false⟩, sampleView⟩ rfl).2.2 ⟨by decide, by decide⟩,
    (GetValue_empty_or_built_from_get sampleProperty 2
      ⟨⟨.scalar .int32, false, false⟩, sampleView⟩ rfl).1 (Or.inr (by decide))⟩

/-- C7: when the status of the dispatched view is `EmptyPropertyWithDefault`,
`GetRawValue` returns the empty metadata value for every `FeatureID`, whatever
`getRaw` of the stored view is (the result does not depend on it); for any other
status it returns the empty value iff `FeatureID` is outside `[0, size)`, and
otherwise the value built from `getRaw(FeatureID)`. -/
theorem GetRawValue_empty_property_or_raw {Value : Type} [Inhabited Value]
    (Property : FCesiumPropertyTableProperty Value) (FeatureID : Int)
    (view : TypedView Value) (hview : dispatchedView Property = .ok view) :
    (view.view.status = .EmptyPropertyWithDefault →
        GetRawValue Property FeatureID = .ok .empty ∧
          ∀ g : Int → Value, GetRawValue (Property.withGetRaw g) FeatureID = .ok .empty) ∧
      (view.view.status ≠ .EmptyPropertyWithDefault →
        (GetRawValue Property FeatureID = .ok .empty
            ↔ (FeatureID < 0 ∨ FeatureID ≥ view.view.size)) ∧
          ((0 ≤ FeatureID ∧ FeatureID < view.view.size) →
            GetRawValue Property FeatureID
              = .ok (.holds view.type (view.view.getRaw FeatureID)))) := by
  constructor
  · intro hs
    constructor
    · simp only [GetRawValue, callback_on_dispatchedView, hview, hs, if_true]
    · intro g
      have hvalid : view ≠ invalidView := by
        intro h
        rw [h] at hs
        exact absurd hs (by simp [invalidView])
      simp only [GetRawValue, callback_on_dispatchedView,
        dispatchedView_withGetRaw Property view g hview hvalid, hs, if_true]
  · intro hs
    by_cases hr : FeatureID ≥ 0 ∧ FeatureID < view.view.size
    · have hval : GetRawValue Property FeatureID
          = .ok (.holds view.type (view.view.getRaw FeatureID)) := by
        simp only [GetRawValue, callback_on_dispatchedView, hview, hs, hr, if_true, if_false,
          and_self]
      refine ⟨⟨fun h => ?_, fun h => ?_⟩, fun _ => hval⟩
      · rw [hval] at h
        cases h
      · omega
    · have hval : GetRawValue Property FeatureID = .ok .empty := by
        simp only [GetRawValue, callback_on_dispatchedView, hview, hs, hr, if_false]
      refine ⟨⟨fun _ => by omega, fun _ => hval⟩, fun h => ?_⟩
      exact absurd ⟨h.1, h.2⟩ hr

/-- C7, at the sample empty property (feature 1 is inside `[0, 2)` and still yields
the empty value, also with another `getRaw`) . -/
theorem GetRawValue_empty_property_or_raw_witness :
    dispatchedView sampleEmptyProperty
        = .ok ⟨⟨.scalar .int32, false, false⟩,
            { sampleView with status := .EmptyPropertyWithDefault }⟩ ∧
      GetRawValue sampleEmptyProperty 1 = .ok .empty ∧
      GetRawValue (sampleEmptyProperty.withGetRaw (fun _ => 0)) 1 = .ok .empty :=
  ⟨rfl,
    ((GetRawValue_empty_property_or_raw sampleEmptyProperty 1 _ rfl).1 rfl).1,
    ((GetRawValue_empty_property_or_raw sampleEmptyProperty 1 _ rfl).1 rfl).2 _⟩

/-- C8: `GetArray` returns the empty array whenever the dispatched view is not an
array view, which is so for every descriptor with `bIsArray` false and for every
invalid descriptor; for an array view it returns the empty array whenever `FeatureID`
is outside `[0, size)` or `get(FeatureID)` yields no value, and otherwise the array
wrapping the value of `get(FeatureID)`. -/
theorem GetArray_empty_or_wraps {Value : Type} [Inhabited Value]
    (Property : FCesiumPropertyTableProperty Value) (FeatureID : Int)
    (view : TypedView Value) (hview : dispatchedView Property = .ok view) :
    (view.type.array = false → GetArray Property FeatureID = .ok .empty) ∧
      (Property._valueType.bIsArray = false → view.type.array = false) ∧
      (InvalidValueType Property._valueType → view.type.array = false) ∧
      (view.type.array = true →
        ((FeatureID < 0 ∨ FeatureID ≥ view.view.size ∨ view.view.get FeatureID = none) →
          GetArray Property FeatureID = .ok .empty) ∧
        (∀ value, 0 ≤ FeatureID → FeatureID < view.view.size →
          view.view.get FeatureID = some value →
          GetArray Property FeatureID = .ok (.wraps view.type value))) := by
  refine ⟨fun ha => ?_, fun hd => ?_, fun hinv => ?_, fun ha => ⟨fun h => ?_, ?_⟩⟩
  · simp only [GetArray, callback_on_dispatchedView, hview, ha, Bool.false_eq_true, if_false]
    split_ifs <;> first | rfl | (cases view.view.get FeatureID <;> rfl)
  · rcases selected_array _ _ _ _ (dispatch_ok_cases _ _ _ _ hview) with h | h
    · rw [h]
      rfl
    · rw [h, hd]
  · have h : dispatchedView Property = .ok invalidView :=
      invalid_descriptor_dispatch (m := Id) _ _ _ hinv _
    rw [hview] at h
    rw [Except.ok.inj h]
    rfl
  · simp only [GetArray, callback_on_dispatchedView, hview, ha]
    by_cases hr : FeatureID < 0 ∨ FeatureID ≥ view.view.size
    · simp only [hr, if_true]
    · have hn : view.view.get FeatureID = none := by
        rcases h with h | h | h
        · exact absurd (Or.inl h) hr
        · exact absurd (Or.inr h) hr
        · exact h
      simp only [hr, if_false, hn]
  · intro value h0 h1 hv
    have hr : ¬ (FeatureID < 0 ∨ FeatureID ≥ view.view.size) := by omega
    simp only [GetArray, callback_on_dispatchedView, hview, ha, hr, if_false, hv, if_true]

/-- C8, at the sample properties: the array property yields the wrapped array at
feature 0 and the empty array at feature 1; the scalar property yields the empty
array at feature 0. -/
theorem GetArray_empty_or_wraps_witness :
    dispatchedView sampleArrayProperty
        = .ok ⟨⟨.scalar .float, true, false⟩, sampleArrayView⟩ ∧
      GetArray sampleArrayProperty 0 = .ok (.wraps ⟨.scalar .float, true, false⟩ 42) ∧
      GetArray sampleArrayProperty 1 = .ok .empty ∧
      GetArray sampleProperty 0 = .ok .empty :=
  ⟨rfl,
    ((GetArray_empty_or_wraps sampleArrayProperty 0 _ rfl).2.2.2 rfl).2 42
      (by decide) (by decide) rfl,
    ((GetArray_empty_or_wraps sampleArrayProperty 1 _ rfl).2.2.2 rfl).1
      (Or.inr (Or.inl (by decide))),
    (GetArray_empty_or_wraps sampleProperty 0
      ⟨⟨.scalar .int32, false, false⟩, sampleView⟩ rfl).1 rfl⟩

/-- C9: `GetArrayElementBlueprintType` returns `None` when `bIsArray` is false, and
otherwise `CesiumMetadataValueTypeToBlueprintType` of the same type and component
type with `bIsArray` cleared; in both cases the value type of the property, as
`GetValueType` returns it, is the same after the call. -/
theorem GetArrayElementBlueprintType_spec {Value BlueprintType : Type}
    (None : BlueprintType)
    (CesiumMetadataValueTypeToBlueprintType : FCesiumMetadataValueType → BlueprintType)
    (Property : FCesiumPropertyTableProperty Value) :
    (Property._valueType.bIsArray = false →
        (GetArrayElementBlueprintType None CesiumMetadataValueTypeToBlueprintType
          Property).1 = None) ∧
      (Property._valueType.bIsArray = true →
        (GetArrayElementBlueprintType None CesiumMetadataValueTypeToBlueprintType
          Property).1
          = CesiumMetadataValueTypeToBlueprintType
              ⟨Property._valueType.Type_, Property._valueType.ComponentType, false⟩) ∧
      GetValueType
          (GetArrayElementBlueprintType None CesiumMetadataValueTypeToBlueprintType
            Property).2
        = GetValueType Property := by
  unfold GetArrayElementBlueprintType
  cases h : Property._valueType.bIsArray <;> simp

/-- C10: each deprecated accessor returns exactly the result of its replacement. -/
theorem deprecated_accessors_eq_replacements {Value BlueprintType : Type}
    [Inhabited Value] (None : BlueprintType)
    (CesiumMetadataValueTypeToBlueprintType : FCesiumMetadataValueType → BlueprintType)
    (Property : FCesiumPropertyTableProperty Value) (FeatureID : Int) :
    GetBlueprintComponentType None CesiumMetadataValueTypeToBlueprintType Property
        = GetArrayElementBlueprintType None CesiumMetadataValueTypeToBlueprintType
            Property ∧
      GetNumberOfFeatures Property = GetPropertySize Property ∧
      GetComponentCount Property = GetArraySize Property ∧
      GetGenericValue Property FeatureID = GetValue Property FeatureID :=
  ⟨rfl, rfl, rfl, rfl⟩

end CesiumPropertyTableProperty

/-! ## Sub-level component: lemmas and claims -/

namespace CesiumSubLevelComponent

section Lemmas

variable {double Transform : Type}

theorem getLevelInstance_record (w : World double Transform) (c : Call double) :
    _getLevelInstance (w.record c) = _getLevelInstance w := rfl

theorem getSwitcher_record (w : World double Transform) (c : Call double) :
    _getSwitcher (w.record c) = _getSwitcher w := rfl

/-- The switcher found for a valid resolved georeference with a switcher, on a
component that is not transient. -/
theorem getSwitcher_eq (w : World double Transform) (g : GeoreferenceId)
    (pSwitcher : UCesiumSubLevelSwitcherComponent)
    (hresolved : w.component.ResolvedGeoreference = some g)
    (hvalid : (w.georeferences g).IsValid = true)
    (hswitcher : (w.georeferences g).Switcher = some pSwitcher)
    (htransient : w.component.RF_Transient = false) :
    _getSwitcher w = some (g, pSwitcher) := by
  simp [_getSwitcher, IsValid, hresolved, hvalid, hswitcher, htransient]

/-- No switcher is found when the resolved georeference is not valid or the component
is transient. -/
theorem getSwitcher_eq_none (w : World double Transform)
    (h : IsValid w w.component.ResolvedGeoreference = false ∨
      w.component.RF_Transient = true) :
    _getSwitcher w = none := by
  rcases h with h | h <;> simp [_getSwitcher, h]

/-- What `UpdateGeoreferenceIfSubLevelIsActive` does when it finds the switcher of the
resolved georeference. -/
theorem update_eq_of_switcher [BEq double] (w : World double Transform) (pOwner : ActorId)
    (g : GeoreferenceId) (pSwitcher : UCesiumSubLevelSwitcherComponent)
    (howner : _getLevelInstance w = some pOwner)
    (hresolved : w.component.ResolvedGeoreference = some g)
    (hvalid : (w.georeferences g).IsValid = true)
    (hswitcher : (w.georeferences g).Switcher = some pSwitcher)
    (htransient : w.component.RF_Transient = false) :
    UpdateGeoreferenceIfSubLevelIsActive w
      = if IsActive pSwitcher pOwner ∧ OriginDiffers w g then
          SetGeoreferenceOriginLongitudeLatitudeHeight
            (w.record .UpdateGeoreferenceIfSubLevelIsActive) g
            ⟨w.component.OriginLongitude, w.component.OriginLatitude,
              w.component.OriginHeight⟩
        else w.record .UpdateGeoreferenceIfSubLevelIsActive := by
  have hsw : _getSwitcher (w.record .UpdateGeoreferenceIfSubLevelIsActive)
      = some (g, pSwitcher) :=
    getSwitcher_eq w g pSwitcher hresolved hvalid hswitcher htransient
  have hres : (w.record .UpdateGeoreferenceIfSubLevelIsActive).component.ResolvedGeoreference
      = some g := hresolved
  have hval : ((w.record .UpdateGeoreferenceIfSubLevelIsActive).georeferences g).IsValid
      = true := hvalid
  unfold UpdateGeoreferenceIfSubLevelIsActive
  simp only [getLevelInstance_record, howner, hres, hval, hsw, Bool.not_true,
    Bool.false_eq_true, if_false]
  by_cases ha : IsActive pSwitcher pOwner
  · have ha' : pSwitcher.Current = some pOwner ∨
        (pSwitcher.Current = none ∧ pSwitcher.Target = some pOwner) := ha
    by_cases hd : OriginDiffers w g
    · have hd' : (w.component.OriginLongitude != (w.georeferences g).OriginLongitude ||
          w.component.OriginLatitude != (w.georeferences g).OriginLatitude ||
          w.component.OriginHeight != (w.georeferences g).OriginHeight) = true := by
        unfold OriginDiffers at hd
        simpa [Bool.or_eq_true, or_assoc] using hd
      simp only [ha, hd, and_self, if_true]
      simp only [World.record]
      simp only [ha', hd', if_true]
    · have hd' : (w.component.OriginLongitude != (w.georeferences g).OriginLongitude ||
          w.component.OriginLatitude != (w.georeferences g).OriginLatitude ||
          w.component.OriginHeight != (w.georeferences g).OriginHeight) = false := by
        unfold OriginDiffers at hd
        rw [← Bool.not_eq_true]
        simpa [Bool.or_eq_true, or_assoc] using hd
      simp only [ha, hd, and_false, if_false]
      simp only [World.record]
      simp only [ha', hd', if_true, Bool.false_eq_true, if_false]
  · have ha' : ¬ (pSwitcher.Current = some pOwner ∨
        (pSwitcher.Current = none ∧ pSwitcher.Target = some pOwner)) := ha
    simp only [ha, false_and, if_false]

/-- `UpdateGeoreferenceIfSubLevelIsActive` only records its entry when the owner is
not a level instance, the resolved georeference is not valid, or the component is
transient. -/
theorem update_eq_record [BEq double] (w : World double Transform)
    (h : _getLevelInstance w = none ∨ IsValid w w.component.ResolvedGeoreference = false ∨
      w.component.RF_Transient = true) :
    UpdateGeoreferenceIfSubLevelIsActive w
      = w.record .UpdateGeoreferenceIfSubLevelIsActive := by
  unfold UpdateGeoreferenceIfSubLevelIsActive
  simp only [getLevelInstance_record]
  rcases h with h | h | h
  · simp only [h]
  · cases ho : _getLevelInstance w with
    | none => rfl
    | some pOwner =>
      simp only []
      cases hr : w.component.ResolvedGeoreference with
      | none =>
        have : (w.record Call.UpdateGeoreferenceIfSubLevelIsActive).component.ResolvedGeoreference
            = none := hr
        simp only [this]
      | some g =>
        have h1 : (w.record Call.UpdateGeoreferenceIfSubLevelIsActive).component.ResolvedGeoreference
            = some g := hr
        have h2 : ((w.record Call.UpdateGeoreferenceIfSubLevelIsActive).georeferences g).IsValid
            = false := by
          simpa [IsValid, hr] using h
        simp only [h1, h2, Bool.not_false, if_true]
  · have hsw : _getSwitcher (w.record .UpdateGeoreferenceIfSubLevelIsActive) = none :=
      getSwitcher_eq_none w (Or.inr h)
    cases ho : _getLevelInstance w with
    | none => rfl
    | some pOwner =>
      simp only [hsw]
      cases (w.record Call.UpdateGeoreferenceIfSubLevelIsActive).component.ResolvedGeoreference with
      | none => rfl
      | some g => simp only []; split_ifs <;> rfl

end Lemmas

section MoreLemmas

variable {double Transform : Type}

/-- `UpdateGeoreferenceIfSubLevelIsActive` records its entry and then, at most, sets
the origin of one georeference. -/
theorem update_cases [BEq double] (w : World double Transform) :
    UpdateGeoreferenceIfSubLevelIsActive w = w.record .UpdateGeoreferenceIfSubLevelIsActive ∨
      ∃ g v, UpdateGeoreferenceIfSubLevelIsActive w
        = SetGeoreferenceOriginLongitudeLatitudeHeight
            (w.record .UpdateGeoreferenceIfSubLevelIsActive) g v := by
  unfold UpdateGeoreferenceIfSubLevelIsActive
  simp only []
  split
  · exact Or.inl rfl
  · split
    · exact Or.inl rfl
    · split
      · exact Or.inl rfl
      · split
        · exact Or.inl rfl
        · split
          · split
            · exact Or.inr ⟨_, _, rfl⟩
            · exact Or.inl rfl
          · exact Or.inl rfl

theorem update_component [BEq double] (w : World double Transform) :
    (UpdateGeoreferenceIfSubLevelIsActive w).component = w.component := by
  rcases update_cases w with h | ⟨g, v, h⟩ <;> rw [h] <;> rfl

theorem update_actors [BEq double] (w : World double Transform) :
    (UpdateGeoreferenceIfSubLevelIsActive w).actors = w.actors := by
  rcases update_cases w with h | ⟨g, v, h⟩ <;> rw [h] <;> rfl

theorem update_defaultGeoreference [BEq double] (w : World double Transform) :
    (UpdateGeoreferenceIfSubLevelIsActive w).defaultGeoreference = w.defaultGeoreference := by
  rcases update_cases w with h | ⟨g, v, h⟩ <;> rw [h] <;> rfl

/-- The calls `UpdateGeoreferenceIfSubLevelIsActive` records: its entry, followed by
calls that set the origin of a georeference. -/
theorem update_calls [BEq double] (w : World double Transform) :
    ∃ rest, (UpdateGeoreferenceIfSubLevelIsActive w).calls
        = w.calls ++ .UpdateGeoreferenceIfSubLevelIsActive :: rest ∧
      ∀ c ∈ rest, c.isSetOrigin = true := by
  rcases update_cases w with h | ⟨g, v, h⟩
  · exact ⟨[], by rw [h]; rfl, by simp⟩
  · refine ⟨[.SetGeoreferenceOriginLongitudeLatitudeHeight g v], ?_, ?_⟩
    · rw [h]
      simp [SetGeoreferenceOriginLongitudeLatitudeHeight, World.record]
    · intro c hc
      simp at hc
      subst hc
      rfl

/-- `ResolveGeoreference` changes at most the field `ResolvedGeoreference`, which
holds the returned georeference afterwards. -/
theorem resolve_world (w : World double Transform) :
    (ResolveGeoreference w).2
      = { w with component :=
          { w.component with ResolvedGeoreference := (ResolveGeoreference w).1 } } := by
  unfold ResolveGeoreference
  split_ifs <;> rfl

theorem resolve_fst (w : World double Transform) :
    (ResolveGeoreference w).2.component.ResolvedGeoreference = (ResolveGeoreference w).1 := by
  rw [resolve_world]

theorem resolve_actors (w : World double Transform) :
    (ResolveGeoreference w).2.actors = w.actors := by
  rw [resolve_world]

theorem resolve_calls (w : World double Transform) :
    (ResolveGeoreference w).2.calls = w.calls := by
  rw [resolve_world]

theorem resolve_georeferences (w : World double Transform) :
    (ResolveGeoreference w).2.georeferences = w.georeferences := by
  rw [resolve_world]

theorem resolve_getLevelInstance (w : World double Transform) :
    _getLevelInstance (ResolveGeoreference w).2 = _getLevelInstance w := by
  rw [resolve_world]
  rfl

/-- The validity of a pointer depends on the georeferences only. -/
theorem isValid_congr (w w' : World double Transform) (p : Option GeoreferenceId)
    (h : ∀ g, (w'.georeferences g).IsValid = (w.georeferences g).IsValid) :
    IsValid w' p = IsValid w p := by
  cases p with
  | none => rfl
  | some g => exact h g

end MoreLemmas

section StepLemmas

variable {double Transform : Type}

/-- The georeference `ResolveGeoreference` returns depends on the two georeference
fields of the component, on the georeferences and on the default georeference only. -/
theorem resolve_congr (w w' : World double Transform)
    (hr : w'.component.ResolvedGeoreference = w.component.ResolvedGeoreference)
    (hg : w'.component.Georeference = w.component.Georeference)
    (hgeo : w'.georeferences = w.georeferences)
    (hd : w'.defaultGeoreference = w.defaultGeoreference) :
    (ResolveGeoreference w').1 = (ResolveGeoreference w).1 := by
  have hv : ∀ p, IsValid w' p = IsValid w p :=
    fun p => isValid_congr w w' p (fun g => by rw [hgeo])
  unfold ResolveGeoreference
  simp only [hv, hr, hg, hd]
  split_ifs <;> rfl

/-- After resolution, registration and the update of the georeference, the actors are
as before and no `Modify()` has been recorded; without a switcher no registration has
been recorded either. -/
theorem resolveRegisterUpdate_actors_calls [BEq double] (host : Host double Transform)
    (x : World double Transform) (pOwner : ActorId) :
    (resolveRegisterUpdate host x pOwner).actors = x.actors ∧
      ∃ new, (resolveRegisterUpdate host x pOwner).calls = x.calls ++ new ∧
        (∀ c ∈ new, c.isModify = false) ∧
        (_getSwitcher (ResolveGeoreference x).2 = none →
          ∀ c ∈ new, c.isRegistration = false) := by
  unfold resolveRegisterUpdate
  rw [update_actors]
  obtain ⟨rest, hcalls, hrest⟩ := update_calls
    (match _getSwitcher (ResolveGeoreference x).2 with
    | some (g, _) => RegisterSubLevel host (ResolveGeoreference x).2 g pOwner
    | none => (ResolveGeoreference x).2)
  rw [hcalls]
  have hnotModify : ∀ c ∈ rest, c.isModify = false := by
    intro c hc
    have := hrest c hc
    cases c <;> simp_all [Call.isSetOrigin, Call.isModify]
  have hnotReg : ∀ c ∈ rest, c.isRegistration = false := by
    intro c hc
    have := hrest c hc
    cases c <;> simp_all [Call.isSetOrigin, Call.isRegistration]
  cases hs : _getSwitcher (ResolveGeoreference x).2 with
  | none =>
    simp only []
    refine ⟨resolve_actors x, .UpdateGeoreferenceIfSubLevelIsActive :: rest, ?_, ?_, ?_⟩
    · rw [resolve_calls]
    · intro c hc
      rcases List.mem_cons.1 hc with h | h
      · subst h
        rfl
      · exact hnotModify c h
    · intro _ c hc
      rcases List.mem_cons.1 hc with h | h
      · subst h
        rfl
      · exact hnotReg c h
  | some p =>
    obtain ⟨g, pSwitcher⟩ := p
    simp only []
    refine ⟨resolve_actors x,
      .RegisterSubLevel g pOwner :: .UpdateGeoreferenceIfSubLevelIsActive :: rest, ?_, ?_, ?_⟩
    · simp [RegisterSubLevel, resolve_calls]
    · intro c hc
      rcases List.mem_cons.1 hc with h | h
      · subst h
        rfl
      · rcases List.mem_cons.1 h with h | h
        · subst h
          rfl
        · exact hnotModify c h
    · intro h
      cases h

/-- `OnRegister` in steps. -/
theorem OnRegister_eq [BEq double] (host : Host double Transform)
    (w : World double Transform) :
    OnRegister host w
      = match _getLevelInstance w with
        | none => { w with component := { w.component with bRenderStateCreated := true } }
        | some pOwner =>
          resolveRegisterUpdate host
            (applySubLevelSettings
              { w with component := { w.component with bRenderStateCreated := true } } pOwner)
            pOwner := by
  unfold OnRegister
  have h0 : _getLevelInstance
      { w with component := { w.component with bRenderStateCreated := true } }
      = _getLevelInstance w := rfl
  simp only [h0]
  cases _getLevelInstance w <;> rfl

/-- The settings of the owner after the editor-only block of `OnRegister`, and the
calls it records. -/
theorem applySubLevelSettings_spec (w : World double Transform) (pOwner : ActorId) :
    ((applySubLevelSettings w pOwner).actors pOwner).IsSpatiallyLoaded = false ∧
      ((applySubLevelSettings w pOwner).actors pOwner).DesiredRuntimeBehavior
        = .LevelStreaming ∧
      (applySubLevelSettings w pOwner).calls
        = w.calls ++
          (if (w.actors pOwner).IsSpatiallyLoaded = true ∨
              (w.actors pOwner).DesiredRuntimeBehavior ≠ .LevelStreaming then
            [Call.Modify (.actor pOwner)]
          else []) ∧
      (applySubLevelSettings w pOwner).component = w.component ∧
      (applySubLevelSettings w pOwner).georeferences = w.georeferences ∧
      (applySubLevelSettings w pOwner).defaultGeoreference = w.defaultGeoreference := by
  unfold applySubLevelSettings
  by_cases hc : (w.actors pOwner).IsSpatiallyLoaded = true ∨
      (w.actors pOwner).DesiredRuntimeBehavior ≠ .LevelStreaming
  · simp only [hc, if_true, World.record]
    by_cases hs : (w.actors pOwner).IsSpatiallyLoaded = true
    · simp [hs, Function.update]
    · simp only [Bool.not_eq_true] at hs
      simp [hs, Function.update]
  · simp only [hc, if_false, List.append_nil]
    simp only [not_or, Bool.not_eq_true, ne_eq, not_not] at hc
    refine ⟨hc.1, hc.2, ?_⟩
    simp

/-- The calls recorded since `w` when the later calls are `w.calls ++ new`. -/
theorem callsSince_eq (w w' : World double Transform) (new : List (Call double))
    (h : w'.calls = w.calls ++ new) : callsSince w w' = new := by
  simp [callsSince, h]

end StepLemmas

section Claims

variable {double Transform : Type}

/-- C11, as the code has it: for a component that is not transient, whose owner is a
level instance and whose resolved georeference is valid and has a switcher,
`UpdateGeoreferenceIfSubLevelIsActive` sets the origin of the georeference to the
origin of the component if and only if the sub-level is active (it is the current
level, or the target level when there is no current level) and at least one of the
three origin values differs from that of the georeference; in every other case every
georeference is left unchanged. -/
theorem update_sets_origin_iff_active_and_different [BEq double]
    (w : World double Transform) (pOwner : ActorId) (g : GeoreferenceId)
    (pSwitcher : UCesiumSubLevelSwitcherComponent)
    (howner : _getLevelInstance w = some pOwner)
    (hresolved : w.component.ResolvedGeoreference = some g)
    (hvalid : (w.georeferences g).IsValid = true)
    (hswitcher : (w.georeferences g).Switcher = some pSwitcher)
    (htransient : w.component.RF_Transient = false) :
    ((∃ c ∈ callsSince w (UpdateGeoreferenceIfSubLevelIsActive w), c.isSetOrigin = true)
        ↔ (IsActive pSwitcher pOwner ∧ OriginDiffers w g)) ∧
      ((IsActive pSwitcher pOwner ∧ OriginDiffers w g) →
        ((UpdateGeoreferenceIfSubLevelIsActive w).georeferences g).OriginLongitude
            = w.component.OriginLongitude ∧
          ((UpdateGeoreferenceIfSubLevelIsActive w).georeferences g).OriginLatitude
            = w.component.OriginLatitude ∧
          ((UpdateGeoreferenceIfSubLevelIsActive w).georeferences g).OriginHeight
            = w.component.OriginHeight ∧
          ∀ g', g' ≠ g →
            (UpdateGeoreferenceIfSubLevelIsActive w).georeferences g' = w.georeferences g') ∧
      (¬ (IsActive pSwitcher pOwner ∧ OriginDiffers w g) →
        (UpdateGeoreferenceIfSubLevelIsActive w).georeferences = w.georeferences) := by
  rw [update_eq_of_switcher w pOwner g pSwitcher howner hresolved hvalid hswitcher htransient]
  by_cases h : IsActive pSwitcher pOwner ∧ OriginDiffers w g
  · rw [if_pos h]
    refine ⟨⟨fun _ => h, fun _ =>
      ⟨.SetGeoreferenceOriginLongitudeLatitudeHeight g
        ⟨w.component.OriginLongitude, w.component.OriginLatitude,
          w.component.OriginHeight⟩, ?_, rfl⟩⟩, fun _ => ⟨?_, ?_, ?_, ?_⟩,
      fun hn => absurd h hn⟩
    · simp [callsSince, SetGeoreferenceOriginLongitudeLatitudeHeight, World.record]
    · simp [SetGeoreferenceOriginLongitudeLatitudeHeight]
    · simp [SetGeoreferenceOriginLongitudeLatitudeHeight]
    · simp [SetGeoreferenceOriginLongitudeLatitudeHeight]
    · intro g' hg'
      simp [SetGeoreferenceOriginLongitudeLatitudeHeight, World.record, Function.update, hg']
  · rw [if_neg h]
    refine ⟨⟨fun hc => ?_, fun hh => absurd hh h⟩, fun hh => absurd hh h, fun _ => rfl⟩
    obtain ⟨c, hc, hset⟩ := hc
    simp [callsSince, World.record] at hc
    subst hc
    simp [Call.isSetOrigin] at hset

/-- C11, on the sample world: the sub-level 5 is the current level and its origin
(10, 20, 30) differs from (0, 0, 0), so the longitude of georeference 1 becomes 10. -/
theorem update_sets_origin_iff_active_and_different_witness :
    ((UpdateGeoreferenceIfSubLevelIsActive sampleWorld).georeferences 1).OriginLongitude
      = 10 :=
  ((update_sets_origin_iff_active_and_different sampleWorld 5 1 ⟨some 5, none⟩ rfl rfl rfl
    rfl rfl).2.1 ⟨Or.inl rfl, Or.inl (by decide)⟩).1

/-- C11 as stated fails for a transient component: in the sample transient world the
owner is a level instance, the resolved georeference 1 is valid and has a switcher,
the sub-level is the current level and its origin differs from that of the
georeference, and yet the origin of the georeference is not set. -/
theorem transient_component_does_not_set_origin :
    _getLevelInstance sampleTransientWorld = some 5 ∧
      sampleTransientWorld.component.ResolvedGeoreference = some 1 ∧
      (sampleTransientWorld.georeferences 1).IsValid = true ∧
      (sampleTransientWorld.georeferences 1).Switcher = some ⟨some 5, none⟩ ∧
      IsActive ⟨some 5, none⟩ 5 ∧
      OriginDiffers sampleTransientWorld 1 ∧
      (UpdateGeoreferenceIfSubLevelIsActive sampleTransientWorld).georeferences
        = sampleTransientWorld.georeferences ∧
      ((UpdateGeoreferenceIfSubLevelIsActive sampleTransientWorld).georeferences 1).OriginLongitude
        = 0 ∧
      sampleTransientWorld.component.OriginLongitude = 10 ∧
      ¬ ∃ c ∈ callsSince sampleTransientWorld
          (UpdateGeoreferenceIfSubLevelIsActive sampleTransientWorld),
        c.isSetOrigin = true := by
  refine ⟨rfl, rfl, rfl, rfl, Or.inl rfl, Or.inl (by decide), rfl, rfl, rfl, ?_⟩
  rw [update_eq_record sampleTransientWorld (Or.inr (Or.inr rfl))]
  simp [callsSince, World.record, Call.isSetOrigin]

end Claims

section Claims2

variable {double Transform : Type}

/-- C12: `SetOriginLongitudeLatitudeHeight(v)` sets the origin of the sub-level to
`v`. When a coordinate of `v` differs (`!=`) from the stored one, the three getters
return `v.X`, `v.Y` and `v.Z` afterwards. When `v` already equals the stored origin in
all three coordinates, the call changes nothing, does not update the georeference, and
the getters return values equal (`==`) to those of `v`. In no case does the call
change `Enabled`, `LoadRadius` or the `Georeference` property. When `!=` is the
negation of equality, the getters return exactly `v.X`, `v.Y` and `v.Z` in every
case. -/
theorem SetOriginLongitudeLatitudeHeight_sets_origin [BEq double]
    (w : World double Transform) (v : FVector double) :
    ((w.component.OriginLongitude != v.X || w.component.OriginLatitude != v.Y ||
          w.component.OriginHeight != v.Z) = true →
        GetOriginLongitude (SetOriginLongitudeLatitudeHeight w v) = v.X ∧
          GetOriginLatitude (SetOriginLongitudeLatitudeHeight w v) = v.Y ∧
          GetOriginHeight (SetOriginLongitudeLatitudeHeight w v) = v.Z) ∧
      ((w.component.OriginLongitude != v.X || w.component.OriginLatitude != v.Y ||
          w.component.OriginHeight != v.Z) = false →
        SetOriginLongitudeLatitudeHeight w v = w ∧
          (∀ c ∈ callsSince w (SetOriginLongitudeLatitudeHeight w v), c.isUpdate = false) ∧
          (GetOriginLongitude (SetOriginLongitudeLatitudeHeight w v) == v.X) = true ∧
          (GetOriginLatitude (SetOriginLongitudeLatitudeHeight w v) == v.Y) = true ∧
          (GetOriginHeight (SetOriginLongitudeLatitudeHeight w v) == v.Z) = true) ∧
      (GetEnabled (SetOriginLongitudeLatitudeHeight w v) = GetEnabled w ∧
        GetLoadRadius (SetOriginLongitudeLatitudeHeight w v) = GetLoadRadius w ∧
        GetGeoreference (SetOriginLongitudeLatitudeHeight w v) = GetGeoreference w) ∧
      (∀ [LawfulBEq double],
        GetOriginLongitude (SetOriginLongitudeLatitudeHeight w v) = v.X ∧
          GetOriginLatitude (SetOriginLongitudeLatitudeHeight w v) = v.Y ∧
          GetOriginHeight (SetOriginLongitudeLatitudeHeight w v) = v.Z) := by
  have hchanged : (w.component.OriginLongitude != v.X || w.component.OriginLatitude != v.Y ||
      w.component.OriginHeight != v.Z) = true →
      (SetOriginLongitudeLatitudeHeight w v).component
        = { w.component with
            OriginLongitude := v.X, OriginLatitude := v.Y, OriginHeight := v.Z } := by
    intro h
    unfold SetOriginLongitudeLatitudeHeight
    rw [if_pos h, update_component]
  have hsame : (w.component.OriginLongitude != v.X || w.component.OriginLatitude != v.Y ||
      w.component.OriginHeight != v.Z) = false → SetOriginLongitudeLatitudeHeight w v = w := by
    intro h
    unfold SetOriginLongitudeLatitudeHeight
    rw [if_neg (by simp [h])]
  refine ⟨fun h => ?_, fun h => ?_, ?_, ?_⟩
  · simp [GetOriginLongitude, GetOriginLatitude, GetOriginHeight, hchanged h]
  · have h' := h
    simp only [Bool.or_eq_false_iff, bne_eq_false_iff_eq] at h'
    rw [hsame h]
    refine ⟨rfl, ?_, ?_⟩
    · simp [callsSince]
    · simp only [bne, Bool.or_eq_false_iff, Bool.not_eq_false'] at h
      exact ⟨h.1.1, h.1.2, h.2⟩
  · cases h : (w.component.OriginLongitude != v.X || w.component.OriginLatitude != v.Y ||
        w.component.OriginHeight != v.Z)
    · rw [hsame h]
      exact ⟨rfl, rfl, rfl⟩
    · simp [GetEnabled, GetLoadRadius, GetGeoreference, hchanged h]
  · intro _
    cases h : (w.component.OriginLongitude != v.X || w.component.OriginLatitude != v.Y ||
        w.component.OriginHeight != v.Z)
    · rw [hsame h]
      simp only [bne, Bool.or_eq_false_iff, Bool.not_eq_false', beq_iff_eq] at h
      exact ⟨h.1.1, h.1.2, h.2⟩
    · simp [GetOriginLongitude, GetOriginLatitude, GetOriginHeight, hchanged h]

/-- C12, on the sample world: setting the origin to (1, 2, 3) is read back, and
setting it to the stored origin (10, 20, 30) changes nothing. -/
theorem SetOriginLongitudeLatitudeHeight_sets_origin_witness :
    GetOriginLongitude (SetOriginLongitudeLatitudeHeight sampleWorld ⟨1, 2, 3⟩) = 1 ∧
      (SetOriginLongitudeLatitudeHeight sampleWorld ⟨10, 20, 30⟩).calls = sampleWorld.calls :=
  ⟨((SetOriginLongitudeLatitudeHeight_sets_origin sampleWorld ⟨1, 2, 3⟩).1 (by decide)).1,
    by rw [((SetOriginLongitudeLatitudeHeight_sets_origin sampleWorld ⟨10, 20, 30⟩).2.1
      (by decide)).1]⟩

/-- C14: `ResolveGeoreference` caches its result. A valid `ResolvedGeoreference` is
returned and nothing changes; otherwise `ResolvedGeoreference` becomes the
`Georeference` property when that is valid and the default georeference when it is
not, and nothing else changes. A second call returns the same georeference and leaves
the world as the first call left it. After `InvalidateResolvedGeoreference`, a valid
`Georeference` property is the one resolved. -/
theorem ResolveGeoreference_caches (w : World double Transform) :
    (IsValid w w.component.ResolvedGeoreference = true →
        ResolveGeoreference w = (w.component.ResolvedGeoreference, w)) ∧
      (IsValid w w.component.ResolvedGeoreference = false →
        IsValid w w.component.Georeference = true →
        (ResolveGeoreference w).1 = w.component.Georeference) ∧
      (IsValid w w.component.ResolvedGeoreference = false →
        IsValid w w.component.Georeference = false →
        (ResolveGeoreference w).1 = w.defaultGeoreference) ∧
      (ResolveGeoreference w).2
        = { w with component :=
            { w.component with ResolvedGeoreference := (ResolveGeoreference w).1 } } ∧
      ResolveGeoreference (ResolveGeoreference w).2
        = ((ResolveGeoreference w).1, (ResolveGeoreference w).2) ∧
      (∀ host : Host double Transform, IsValid w w.component.Georeference = true →
        (ResolveGeoreference (InvalidateResolvedGeoreference host w)).1
          = w.component.Georeference) := by
  refine ⟨fun h => ?_, fun h h' => ?_, fun h h' => ?_, resolve_world w, ?_, fun host h => ?_⟩
  · simp [ResolveGeoreference, h]
  · simp [ResolveGeoreference, h, h']
  · simp [ResolveGeoreference, h, h']
  · unfold ResolveGeoreference
    by_cases h : IsValid w w.component.ResolvedGeoreference = true
    · simp only [h, if_true]
    · simp only [h, if_false, Bool.false_eq_true]
      by_cases h' : IsValid w w.component.Georeference = true
      · have h2 : IsValid
            { w with component :=
              { w.component with ResolvedGeoreference := w.component.Georeference } }
            w.component.Georeference = true := h'
        simp only [h', if_true, h2]
      · have h2 : IsValid
            { w with component :=
              { w.component with ResolvedGeoreference := w.defaultGeoreference } }
            w.component.Georeference = IsValid w w.component.Georeference := rfl
        simp only [h', if_false, Bool.false_eq_true, h2]
        split_ifs <;> rfl
  · have hcomp : (InvalidateResolvedGeoreference host w).component
        = { w.component with ResolvedGeoreference := none } := by
      unfold InvalidateResolvedGeoreference
      simp only []
      split_ifs
      · split
        · split <;> rfl
        · rfl
      · rfl
    have hvalid : ∀ g, ((InvalidateResolvedGeoreference host w).georeferences g).IsValid
        = (w.georeferences g).IsValid := by
      intro g
      unfold InvalidateResolvedGeoreference
      simp only []
      split_ifs
      · split
        · split
          · simp only [UnregisterSubLevel, Function.update]
            split_ifs with hg
            · subst hg
              rfl
            · rfl
          · rfl
        · rfl
      · rfl
    have hv := isValid_congr w (InvalidateResolvedGeoreference host w) w.component.Georeference
      hvalid
    unfold ResolveGeoreference
    simp only [hcomp, IsValid, Bool.false_eq_true, if_false]
    have hv' : IsValid (InvalidateResolvedGeoreference host w) w.component.Georeference
        = true := by rw [hv, h]
    simp only [IsValid] at hv'
    simp only [hv', if_true]

/-- C14, on the sample world after invalidation: the georeference property 1 is the
one resolved, and resolving again returns it again. -/
theorem ResolveGeoreference_caches_witness :
    (ResolveGeoreference (InvalidateResolvedGeoreference sampleHost sampleWorld)).1 = some 1 ∧
      (ResolveGeoreference
        (ResolveGeoreference (InvalidateResolvedGeoreference sampleHost sampleWorld)).2).1
        = some 1 :=
  ⟨(ResolveGeoreference_caches sampleWorld).2.2.2.2.2 sampleHost rfl,
    by
      rw [(ResolveGeoreference_caches
        (InvalidateResolvedGeoreference sampleHost sampleWorld)).2.2.2.2.1]
      exact (ResolveGeoreference_caches sampleWorld).2.2.2.2.2 sampleHost rfl⟩

end Claims2

section Claims3

variable {double Transform : Type}

/-- C13: after `OnRegister` (editor build) on a component whose owner is a level
instance, the owner is not spatially loaded and its runtime behaviour is
`LevelStreaming`, whatever the two settings were; and `Modify()` is recorded on the
owner exactly when at least one of the two settings had another value before (no
other `Modify()` is recorded). -/
theorem OnRegister_owner_settings [BEq double] (host : Host double Transform)
    (w : World double Transform) (pOwner : ActorId)
    (howner : _getLevelInstance w = some pOwner) :
    ((OnRegister host w).actors pOwner).IsSpatiallyLoaded = false ∧
      ((OnRegister host w).actors pOwner).DesiredRuntimeBehavior = .LevelStreaming ∧
      (Call.Modify (.actor pOwner) ∈ callsSince w (OnRegister host w) ↔
        ((w.actors pOwner).IsSpatiallyLoaded = true ∨
          (w.actors pOwner).DesiredRuntimeBehavior ≠ .LevelStreaming)) ∧
      (∀ c ∈ callsSince w (OnRegister host w), c.isModify = true →
        c = .Modify (.actor pOwner)) := by
  rw [OnRegister_eq, howner]
  simp only []
  obtain ⟨hsl, hrb, hcalls, -⟩ := applySubLevelSettings_spec
    { w with component := { w.component with bRenderStateCreated := true } } pOwner
  obtain ⟨hactors, new, hnewcalls, hnew, -⟩ := resolveRegisterUpdate_actors_calls host
    (applySubLevelSettings
      { w with component := { w.component with bRenderStateCreated := true } } pOwner) pOwner
  rw [hactors]
  refine ⟨hsl, hrb, ?_, ?_⟩
  · rw [callsSince_eq w _ _ (by rw [hnewcalls, hcalls, List.append_assoc])]
    by_cases hc : (w.actors pOwner).IsSpatiallyLoaded = true ∨
        (w.actors pOwner).DesiredRuntimeBehavior ≠ .LevelStreaming
    · simp only [hc, if_true, iff_true]
      exact List.mem_append_left _ (List.mem_singleton.2 rfl)
    · simp only [hc, if_false, iff_false, List.nil_append]
      intro hmem
      have := hnew _ hmem
      simp [Call.isModify] at this
  · rw [callsSince_eq w _ _ (by rw [hnewcalls, hcalls, List.append_assoc])]
    intro c hc hmod
    rcases List.mem_append.1 hc with h | h
    · split_ifs at h
      · exact List.mem_singleton.1 h
      · cases h
    · rw [hnew c h] at hmod
      cases hmod

/-- C13, on the sample world, whose owner 5 is spatially loaded and partitioned. -/
theorem OnRegister_owner_settings_witness :
    ((OnRegister sampleHost sampleWorld).actors 5).IsSpatiallyLoaded = false ∧
      ((OnRegister sampleHost sampleWorld).actors 5).DesiredRuntimeBehavior
        = .LevelStreaming :=
  ⟨(OnRegister_owner_settings sampleHost sampleWorld 5 rfl).1,
    (OnRegister_owner_settings sampleHost sampleWorld 5 rfl).2.1⟩

end Claims3

section Claims4

variable {double Transform : Type}

/-- C15: `RegisterSubLevel` and `UnregisterSubLevel` are not called by `BeginPlay`,
`OnRegister`, `OnUnregister` and `InvalidateResolvedGeoreference` when the owner is
not a level instance, when the component is transient, or when the resolved
georeference is not valid at the time the switcher is looked up (after the resolution
`BeginPlay` and `OnRegister` start with); `_getSwitcher` returns null in the latter
two cases; and in those cases `UpdateGeoreferenceIfSubLevelIsActive` leaves every
georeference unchanged. -/
theorem registration_only_for_legitimate_sub_levels [BEq double]
    (host : Host double Transform) (w : World double Transform) :
    ((_getLevelInstance w = none ∨ w.component.RF_Transient = true ∨
          IsValid (ResolveGeoreference w).2 (ResolveGeoreference w).1 = false) →
        (∀ c ∈ callsSince w (BeginPlay host w), c.isRegistration = false) ∧
          (∀ c ∈ callsSince w (OnRegister host w), c.isRegistration = false)) ∧
      ((_getLevelInstance w = none ∨ w.component.RF_Transient = true ∨
          IsValid w w.component.ResolvedGeoreference = false) →
        (∀ c ∈ callsSince w (OnUnregister host w), c.isRegistration = false) ∧
          (∀ c ∈ callsSince w (InvalidateResolvedGeoreference host w),
            c.isRegistration = false) ∧
          (UpdateGeoreferenceIfSubLevelIsActive w).georeferences = w.georeferences) ∧
      ((w.component.RF_Transient = true ∨
          IsValid w w.component.ResolvedGeoreference = false) → _getSwitcher w = none) := by
  refine ⟨fun h => ⟨?_, ?_⟩, fun h => ⟨?_, ?_, ?_⟩, fun h => ?_⟩
  · -- BeginPlay
    have hw : BeginPlay host w = (ResolveGeoreference w).2 := by
      unfold BeginPlay
      simp only []
      rcases h with h | h | h
      · rw [resolve_getLevelInstance, h]
        cases _getSwitcher (ResolveGeoreference w).2 <;> rfl
      · rw [getSwitcher_eq_none _ (Or.inr (by rw [resolve_world]; exact h))]
      · rw [getSwitcher_eq_none _ (Or.inl (by rw [resolve_fst]; exact h))]
    rw [hw, callsSince_eq w _ [] (by rw [resolve_calls, List.append_nil])]
    simp
  · -- OnRegister
    rw [OnRegister_eq]
    cases ho : _getLevelInstance w with
    | none =>
      simp only []
      rw [callsSince_eq w _ [] (by simp)]
      simp
    | some pOwner =>
      simp only []
      obtain ⟨-, -, hcalls, hcomp, hgeo, hdef⟩ := applySubLevelSettings_spec
        { w with component := { w.component with bRenderStateCreated := true } } pOwner
      obtain ⟨-, new, hnewcalls, -, hnoreg⟩ := resolveRegisterUpdate_actors_calls host
        (applySubLevelSettings
          { w with component := { w.component with bRenderStateCreated := true } } pOwner)
        pOwner
      have hnone : _getSwitcher (ResolveGeoreference (applySubLevelSettings
          { w with component := { w.component with bRenderStateCreated := true } }
          pOwner)).2 = none := by
        rcases h with h | h | h
        · rw [ho] at h
          cases h
        · apply getSwitcher_eq_none _ (Or.inr _)
          rw [resolve_world]
          simp only [hcomp]
          exact h
        · apply getSwitcher_eq_none _ (Or.inl _)
          rw [resolve_fst]
          have h1 := resolve_congr w (applySubLevelSettings
            { w with component := { w.component with bRenderStateCreated := true } } pOwner)
            (by rw [hcomp]) (by rw [hcomp]) hgeo hdef
          rw [h1]
          rw [← h]
          apply isValid_congr
          intro g
          rw [resolve_georeferences, resolve_georeferences, hgeo]
      rw [callsSince_eq w _ _ (by rw [hnewcalls, hcalls, List.append_assoc])]
      intro c hc
      rcases List.mem_append.1 hc with hc | hc
      · split_ifs at hc
        · rw [List.mem_singleton.1 hc]
          rfl
        · cases hc
      · exact hnoreg hnone c hc
  · -- OnUnregister
    have hw : OnUnregister host w = w := by
      unfold OnUnregister
      rcases h with h | h | h
      · rw [h]
      · rw [getSwitcher_eq_none w (Or.inr h)]
        cases _getLevelInstance w <;> rfl
      · rw [getSwitcher_eq_none w (Or.inl h)]
        cases _getLevelInstance w <;> rfl
    rw [hw, callsSince_eq w w [] (by simp)]
    simp
  · -- InvalidateResolvedGeoreference
    have hw : (InvalidateResolvedGeoreference host w).calls = w.calls := by
      unfold InvalidateResolvedGeoreference
      simp only []
      rcases h with h | h | h
      · rw [h]
        split_ifs
        · cases _getSwitcher w with
          | none => rfl
          | some p => rfl
        · rfl
      · rw [getSwitcher_eq_none w (Or.inr h)]
        split_ifs <;> rfl
      · rw [h]
        rfl
    rw [callsSince_eq w _ [] (by rw [hw, List.append_nil])]
    simp
  · -- UpdateGeoreferenceIfSubLevelIsActive
    rw [update_eq_record w (by tauto)]
    rfl
  · exact getSwitcher_eq_none w (by tauto)

/-- C15, on the sample transient world: `BeginPlay` and `OnUnregister` record no
registration, and no switcher is found. -/
theorem registration_only_for_legitimate_sub_levels_witness :
    (∀ c ∈ callsSince sampleTransientWorld (BeginPlay sampleHost sampleTransientWorld),
        c.isRegistration = false) ∧
      (∀ c ∈ callsSince sampleTransientWorld (OnUnregister sampleHost sampleTransientWorld),
        c.isRegistration = false) ∧
      _getSwitcher sampleTransientWorld = none :=
  ⟨((registration_only_for_legitimate_sub_levels sampleHost sampleTransientWorld).1
      (Or.inr (Or.inl rfl))).1,
    ((registration_only_for_legitimate_sub_levels sampleHost sampleTransientWorld).2.1
      (Or.inr (Or.inl rfl))).1,
    (registration_only_for_legitimate_sub_levels sampleHost sampleTransientWorld).2.2
      (Or.inl rfl)⟩

/-- C16: `PlaceGeoreferenceOriginAtSubLevelOrigin` fails without effect: when the
sub-level has no valid georeference after resolution, when the component has no valid
owning actor, or when the position of the level instance cannot be converted to
longitude, latitude and height, then the actors (and so the transform of the owner)
and the origin of the component are unchanged, and no call is recorded, in
particular no `Modify()`. -/
theorem PlaceGeoreferenceOriginAtSubLevelOrigin_fails_without_effect [BEq double]
    (host : Host double Transform) (w : World double Transform)
    (h : IsValid (ResolveGeoreference w).2 (ResolveGeoreference w).1 = false ∨
      IsValidActor w w.component.Owner = false ∨
      (∀ g pOwner, (ResolveGeoreference w).1 = some g → w.component.Owner = some pOwner →
        host.cartographicOfLevelCenter (ResolveGeoreference w).2 g pOwner = none)) :
    (PlaceGeoreferenceOriginAtSubLevelOrigin host w).actors = w.actors ∧
      GetOriginLongitude (PlaceGeoreferenceOriginAtSubLevelOrigin host w)
        = GetOriginLongitude w ∧
      GetOriginLatitude (PlaceGeoreferenceOriginAtSubLevelOrigin host w)
        = GetOriginLatitude w ∧
      GetOriginHeight (PlaceGeoreferenceOriginAtSubLevelOrigin host w) = GetOriginHeight w ∧
      (PlaceGeoreferenceOriginAtSubLevelOrigin host w).calls = w.calls ∧
      (∀ c ∈ callsSince w (PlaceGeoreferenceOriginAtSubLevelOrigin host w),
        c.isModify = false) := by
  have hw : PlaceGeoreferenceOriginAtSubLevelOrigin host w = (ResolveGeoreference w).2 := by
    unfold PlaceGeoreferenceOriginAtSubLevelOrigin
    have howner : (ResolveGeoreference w).2.component.Owner = w.component.Owner := by
      rw [resolve_world]
    cases hg : (ResolveGeoreference w).1 with
    | none =>
      have : ResolveGeoreference w = (none, (ResolveGeoreference w).2) := by
        rw [← hg]
      rw [this]
    | some g =>
      have : ResolveGeoreference w = (some g, (ResolveGeoreference w).2) := by
        rw [← hg]
      rw [this]
      simp only []
      rw [hg] at h
      by_cases hv : ((ResolveGeoreference w).2.georeferences g).IsValid = true
      · simp only [hv, Bool.not_true, Bool.false_eq_true, if_false, howner]
        cases ho : w.component.Owner with
        | none => rfl
        | some pOwner =>
          simp only []
          by_cases hva : ((ResolveGeoreference w).2.actors pOwner).IsValid = true
          · simp only [hva, Bool.not_true, Bool.false_eq_true, if_false]
            rcases h with h | h | h
            · simp [IsValid, hv] at h
            · rw [resolve_actors] at hva
              simp [IsValidActor, ho, hva] at h
            · rw [h g pOwner rfl ho]
          · simp only [Bool.not_eq_true] at hva
            simp only [hva, Bool.not_false, if_true]
      · simp only [Bool.not_eq_true] at hv
        simp only [hv, Bool.not_false, if_true]
  rw [hw, resolve_actors, resolve_calls]
  refine ⟨rfl, ?_, ?_, ?_, rfl, ?_⟩
  · rw [GetOriginLongitude, resolve_world]
    rfl
  · rw [GetOriginLatitude, resolve_world]
    rfl
  · rw [GetOriginHeight, resolve_world]
    rfl
  · rw [callsSince_eq w _ [] (by rw [resolve_calls, List.append_nil])]
    simp

/-- C16, on a sample world whose component has no owner. -/
theorem PlaceGeoreferenceOriginAtSubLevelOrigin_fails_without_effect_witness :
    (PlaceGeoreferenceOriginAtSubLevelOrigin sampleHost
        { sampleWorld with component := { sampleWorld.component with Owner := none } }).calls
      = [] :=
  (PlaceGeoreferenceOriginAtSubLevelOrigin_fails_without_effect sampleHost
    { sampleWorld with component := { sampleWorld.component with Owner := none } }
    (Or.inr (Or.inl rfl))).2.2.2.2.1

/-- C18: `PostEditChangeProperty` invokes `UpdateGeoreferenceIfSubLevelIsActive` if
and only if the event carries a property named `OriginLongitude`, `OriginLatitude` or
`OriginHeight`, and then it does what that function does; for an event without a
property, or with any other property, the world is unchanged, so that no origin of a
georeference is changed. -/
theorem PostEditChangeProperty_updates_only_for_origin [BEq double]
    (w : World double Transform) (Property : Option String) :
    ((∃ c ∈ callsSince w (PostEditChangeProperty w Property), c.isUpdate = true) ↔
        (Property = some "OriginLongitude" ∨ Property = some "OriginLatitude" ∨
          Property = some "OriginHeight")) ∧
      ((Property = some "OriginLongitude" ∨ Property = some "OriginLatitude" ∨
          Property = some "OriginHeight") →
        PostEditChangeProperty w Property = UpdateGeoreferenceIfSubLevelIsActive w) ∧
      (¬ (Property = some "OriginLongitude" ∨ Property = some "OriginLatitude" ∨
          Property = some "OriginHeight") →
        PostEditChangeProperty w Property = w ∧
          (PostEditChangeProperty w Property).georeferences = w.georeferences) := by
  have hyes : (Property = some "OriginLongitude" ∨ Property = some "OriginLatitude" ∨
      Property = some "OriginHeight") →
      PostEditChangeProperty w Property = UpdateGeoreferenceIfSubLevelIsActive w := by
    intro h
    unfold PostEditChangeProperty
    rcases h with h | h | h <;> subst h <;> simp
  have hno : ¬ (Property = some "OriginLongitude" ∨ Property = some "OriginLatitude" ∨
      Property = some "OriginHeight") → PostEditChangeProperty w Property = w := by
    intro h
    unfold PostEditChangeProperty
    cases Property with
    | none => rfl
    | some propertyName =>
      simp only [Option.some.injEq] at h
      simp only [h, if_false]
  refine ⟨?_, hyes, fun h => ⟨hno h, by rw [hno h]⟩⟩
  by_cases h : Property = some "OriginLongitude" ∨ Property = some "OriginLatitude" ∨
      Property = some "OriginHeight"
  · simp only [h, iff_true]
    rw [hyes h]
    obtain ⟨rest, hcalls, -⟩ := update_calls w
    rw [callsSince_eq w _ _ hcalls]
    exact ⟨_, List.mem_cons_self _ _, rfl⟩
  · simp only [h, iff_false]
    rw [hno h, callsSince_eq w w [] (by simp)]
    simp

/-- C18, on the sample world: an edit of `OriginLatitude` updates the georeference,
whose latitude becomes 20; an edit of `LoadRadius` changes nothing. -/
theorem PostEditChangeProperty_updates_only_for_origin_witness :
    ((PostEditChangeProperty sampleWorld (some "OriginLatitude")).georeferences 1).OriginLatitude
        = 20 ∧
      ((PostEditChangeProperty sampleWorld (some "LoadRadius")).georeferences 1).OriginLatitude
        = 0 := by
  constructor
  · rw [(PostEditChangeProperty_updates_only_for_origin sampleWorld
      (some "OriginLatitude")).2.1 (Or.inr (Or.inl rfl))]
    rfl
  · rw [((PostEditChangeProperty_updates_only_for_origin sampleWorld
      (some "LoadRadius")).2.2 (by decide)).1]
    rfl

end Claims4

end CesiumSubLevelComponent

/-! ## Cesium ion session: claims -/

namespace CesiumIon

/-- C17, as the code has it: when the settings hold no user access token for the
server of the session, or an empty one, and also when the server is not valid or the
session is already connecting, connected or resuming, `resume()` changes nothing: the
resuming flag and the connection are as before, no request is issued and no event is
broadcast. When the token is looked up (the server is valid and the session is not
connecting, connected or resuming) and there is none, the session is not resuming and
has no connection afterwards. With a token that is not empty, a session that passes
the guard does resume. -/
theorem resume_does_nothing_without_session (e : Editor) :
    ((NoUserAccessToken e ∨ e.session._pServer = none ∨ isConnecting e.session = true ∨
          isConnected e.session = true ∨ isResuming e.session = true) →
        resume e = e ∧ isResuming (resume e).session = isResuming e.session ∧
          (resume e).session._connection = e.session._connection ∧
          (resume e).requests = e.requests ∧ (resume e).broadcasts = e.broadcasts) ∧
      (NoUserAccessToken e → isConnecting e.session = false → isConnected e.session = false →
        isResuming e.session = false →
        isResuming (resume e).session = false ∧ (resume e).session._connection = none) ∧
      (∀ pServer token, e.session._pServer = some pServer →
        e.UserAccessTokenMap pServer.key = some token → token ≠ "" →
        isConnecting e.session = false → isConnected e.session = false →
        isResuming e.session = false →
        isResuming (resume e).session = true ∧
          (resume e).session._connection = some ⟨token, pServer.ApiUrl⟩ ∧
          (resume e).requests = e.requests ++ [.me ⟨token, pServer.ApiUrl⟩]) := by
  have hnothing : (NoUserAccessToken e ∨ e.session._pServer = none ∨
      isConnecting e.session = true ∨ isConnected e.session = true ∨
      isResuming e.session = true) → resume e = e := by
    intro h
    unfold resume
    split_ifs with hg
    · rfl
    · cases hs : e.session._pServer with
      | none => rfl
      | some pServer =>
        simp only []
        rcases h with h | h | h | h | h
        · rcases h pServer hs with ht | ht
          · rw [ht]
          · rw [ht]
            rfl
        · rw [hs] at h
          cases h
        · simp [h] at hg
        · simp [h] at hg
        · simp [h] at hg
  refine ⟨fun h => ?_, fun h h1 h2 h3 => ?_, fun pServer token hs ht hne h1 h2 h3 => ?_⟩
  · rw [hnothing h]
    exact ⟨rfl, rfl, rfl, rfl, rfl⟩
  · rw [hnothing (Or.inl h)]
    refine ⟨h3, ?_⟩
    cases hc : e.session._connection with
    | none => rfl
    | some c => simp [isConnected, hc] at h2
  · have hempty : token.isEmpty = false := by
      cases hte : token.isEmpty
      · rfl
      · exact absurd ((String.isEmpty_iff token).1 hte) hne
    simp only [isConnecting, isConnected, isResuming] at h1 h2 h3
    unfold resume
    simp [hs, h1, h2, h3, ht, hempty, isResuming, isConnecting, isConnected]

/-- C17, on the sample idle editor state, which has no user access token. -/
theorem resume_does_nothing_without_session_witness :
    (resume sampleIdleEditor).requests = [] ∧
      isResuming (resume sampleIdleEditor).session = false :=
  ⟨((resume_does_nothing_without_session sampleIdleEditor).1
      (Or.inl (fun _ _ => Or.inl rfl))).2.2.2.1,
    ((resume_does_nothing_without_session sampleIdleEditor).2.1
      (fun _ _ => Or.inl rfl) rfl rfl rfl).1⟩

/-- C17 as stated fails for a session that is already resuming: the settings hold no
user access token for its server, and after `resume()` the session is still
resuming. -/
theorem resume_leaves_resuming_session_resuming :
    NoUserAccessToken sampleResumingEditor ∧
      isResuming sampleResumingEditor.session = true ∧
      isResuming (resume sampleResumingEditor).session = true :=
  ⟨fun _ _ => Or.inl rfl, rfl, rfl⟩

end CesiumIon
